import Mathlib

/-!
A shallow embedding of the platformer movement core (src/constants.py,
src/platforms.py, src/player.py, src/level.py, src/main.py) together with
theorems settling the frozen claims about it.

Modelling conventions:
* Positions and velocities are exact rationals.  The source stores rect
  coordinates in pygame Rect objects, which truncate to machine integers on
  assignment; that sub-unit truncation (and float rounding of values such as
  0.8) is not modelled — arithmetic here is exact.
* MovingPlatform is embedded with its square pattern only; the horizontal,
  vertical and circular patterns evaluate floating point sin and cos and no
  claim depends on them.
* Game.update_playing is embedded for enemy-free states (all claims concern
  the player, platforms, hazards and collectibles); particle, camera and
  drawing code has no effect on the state modelled here.
* The source passes level.get_active_platforms() to player.update, and the
  collision loops in player.py re-check platform.active themselves.  Here the
  full platform list is passed through (the loops skip inactive entries
  exactly as the source does), which also lets the in-place platform
  mutations (trigger, trigger_bounce) be returned functionally.
-/

namespace Platformer

/-! ### Constants (src/constants.py) -/

def GRAVITY : ℚ := 4/5
def TERMINAL_VELOCITY : ℚ := 20
def FRICTION : ℚ := 17/20
def SCREEN_HEIGHT : ℚ := 800

def PLAYER_WIDTH : ℚ := 32
def PLAYER_HEIGHT : ℚ := 48
def PLAYER_ACCELERATION : ℚ := 4/5
def PLAYER_MAX_SPEED : ℚ := 6
def PLAYER_JUMP_STRENGTH : ℚ := -16
def PLAYER_DOUBLE_JUMP_STRENGTH : ℚ := -14
def PLAYER_DASH_SPEED : ℚ := 15
def PLAYER_DASH_DURATION : ℤ := 12
def PLAYER_DASH_COOLDOWN : ℕ := 40
def PLAYER_WALL_SLIDE_SPEED : ℚ := 2
def PLAYER_WALL_JUMP_X : ℚ := 10
def PLAYER_WALL_JUMP_Y : ℚ := -14
def PLAYER_COYOTE_TIME : ℕ := 6
def PLAYER_JUMP_BUFFER : ℕ := 8
def PLAYER_MAX_HEALTH : ℤ := 3
def PLAYER_INVINCIBILITY_FRAMES : ℕ := 90

def SQUASH_LAND : ℚ := 7/10
def STRETCH_JUMP : ℚ := 13/10
def SQUASH_RECOVERY_SPEED : ℚ := 3/20

def POWERUP_DURATION : ℕ := 300

/-! ### Rectangles (pygame.Rect, exact coordinates) -/

@[ext]
structure Rect where
  x : ℚ
  y : ℚ
  w : ℚ
  h : ℚ
deriving DecidableEq, Repr

def Rect.right (r : Rect) : ℚ := r.x + r.w

def Rect.bottom (r : Rect) : ℚ := r.y + r.h

/-- pygame Rect.colliderect: strict-overlap test on both axes. -/
def Rect.colliderect (a b : Rect) : Bool :=
  decide (a.x < b.x + b.w) && decide (b.x < a.x + a.w) &&
  decide (a.y < b.y + b.h) && decide (b.y < a.y + a.h)

/-! ### Platforms (src/platforms.py)

The Python classes Platform, MovingPlatform, FallingPlatform, BouncyPlatform
and OneWayPlatform are represented by one structure carrying the union of
their fields plus a `kind` discriminant standing for the Python class (used
where the source dispatches with hasattr or isinstance).  `ptype` is the
`type` string attribute. -/

inductive PKind
  | base
  | moving
  | falling
  | bouncyK
  | onewayK
deriving DecidableEq, Repr

inductive PType
  | normal
  | ice
  | sticky
  | bouncy
  | fall
  | oneway
deriving DecidableEq, Repr

@[ext]
structure Plat where
  rect : Rect
  ptype : PType
  friction : ℚ
  active : Bool
  kind : PKind
  -- MovingPlatform fields
  start_x : ℚ := 0
  start_y : ℚ := 0
  speed : ℤ := 2
  distance : ℤ := 200
  time : ℤ := 0
  -- FallingPlatform fields
  fall_delay : ℕ := 20
  touched : Bool := false
  shake_timer : ℕ := 0
  fall_timer : ℕ := 0
  falling : Bool := false
  fall_speed : ℚ := 0
  original_x : ℚ := 0
  -- BouncyPlatform fields
  bounce_strength : ℚ := -20
  bounce_animation : ℕ := 0
  compressed_height : ℚ := 0
deriving DecidableEq, Repr

/-- FallingPlatform.__init__(x, y, width, height): base Platform init for the
fall type plus the falling-specific fields. -/
def fallingPlatformInit (x y w h : ℚ) : Plat :=
  { rect := ⟨x, y, w, h⟩, ptype := PType.fall, friction := 1, active := true,
    kind := PKind.falling, fall_delay := 20, touched := false,
    shake_timer := 0, fall_timer := 0, falling := false, fall_speed := 0,
    original_x := x }

/-- MovingPlatform.update, square pattern: position as a function of the
phase counter. -/
def squarePos (start_x start_y : ℚ) (speed distance : ℤ) (t : ℤ) : ℚ × ℚ :=
  let cycle : ℤ := (t * speed) % (distance * 4)
  if cycle < distance then
    (start_x + cycle, start_y)
  else if cycle < distance * 2 then
    (start_x + distance, start_y + (cycle - distance))
  else if cycle < distance * 3 then
    (start_x + distance - (cycle - distance * 2), start_y + distance)
  else
    (start_x, start_y + distance - (cycle - distance * 3))

/-- MovingPlatform.update (square pattern; the sin and cos based patterns are
not modelled, no claim depends on them). -/
def movingUpdate (pl : Plat) : Plat :=
  let t := pl.time + 1
  let pos := squarePos pl.start_x pl.start_y pl.speed pl.distance t
  { pl with time := t, rect := { pl.rect with x := pos.1, y := pos.2 } }

/-- MovingPlatform.get_velocity: displacement from the current rect to the
next-phase position.  (The source computes this by a transient rect
mutation that the next update overwrites; only the returned pair is used.) -/
def movingGetVelocity (pl : Plat) : ℚ × ℚ :=
  let pos := squarePos pl.start_x pl.start_y pl.speed pl.distance (pl.time + 1)
  (pos.1 - pl.rect.x, pos.2 - pl.rect.y)

/-- FallingPlatform.trigger. -/
def platTrigger (pl : Plat) : Plat :=
  if pl.touched = false ∧ pl.falling = false then
    { pl with touched := true, shake_timer := pl.fall_delay }
  else pl

/-- FallingPlatform.update. -/
def fallingUpdate (pl : Plat) : Plat :=
  let pl :=
    if pl.shake_timer > 0 then
      let st := pl.shake_timer - 1
      let xv := if st % 4 < 2 then pl.original_x + 2 else pl.original_x - 2
      let pl := { pl with shake_timer := st, rect := { pl.rect with x := xv } }
      if st = 0 then
        { pl with falling := true, rect := { pl.rect with x := pl.original_x } }
      else pl
    else pl
  if pl.falling then
    let fs := pl.fall_speed + GRAVITY
    let yv := pl.rect.y + fs
    let pl := { pl with fall_speed := fs, rect := { pl.rect with y := yv } }
    if yv > SCREEN_HEIGHT + 100 then { pl with active := false } else pl
  else pl

/-- BouncyPlatform.update. -/
def bouncyUpdate (pl : Plat) : Plat :=
  if pl.bounce_animation > 0 then
    let ba := pl.bounce_animation - 1
    { pl with bounce_animation := ba,
              compressed_height := pl.rect.h * (1 - ((ba : ℚ) / 10) * (3/10)) }
  else pl

/-- platform.update(), dispatched by class (base Platform and OneWayPlatform
have a pass body). -/
def platUpdate (pl : Plat) : Plat :=
  match pl.kind with
  | PKind.base => pl
  | PKind.onewayK => pl
  | PKind.moving => movingUpdate pl
  | PKind.falling => fallingUpdate pl
  | PKind.bouncyK => bouncyUpdate pl

/-! ### Player (src/player.py) -/

@[ext]
structure Keys where
  left : Bool := false
  right : Bool := false
  jump : Bool := false
  dash : Bool := false
deriving DecidableEq, Repr

def kNone : Keys := {}

def kJump : Keys := { jump := true }

@[ext]
structure Player where
  rect : Rect
  vel_x : ℚ := 0
  vel_y : ℚ := 0
  on_ground : Bool := false
  on_wall : ℤ := 0
  facing : ℤ := 1
  can_jump : Bool := true
  double_jump_available : Bool := true
  jump_held : Bool := false
  coyote_timer : ℕ := 0
  jump_buffer_timer : ℕ := 0
  dashing : Bool := false
  dash_timer : ℤ := 0
  dash_cooldown_timer : ℕ := 0
  dash_direction : ℤ := 0
  wall_sliding : Bool := false
  wall_jump_timer : ℕ := 0
  squash_stretch : ℚ := 1
  landed_this_frame : Bool := false
  jumped_this_frame : Bool := false
  health : ℤ := PLAYER_MAX_HEALTH
  invincible : Bool := false
  invincibility_timer : ℕ := 0
  damaged_this_frame : Bool := false
  coins : ℕ := 0
  score : ℤ := 0
  powered_up : Bool := false
  powerup_timer : ℕ := 0
  current_platform : Option Plat := none
  last_ground_y : ℚ := 0
deriving DecidableEq, Repr

/-- Player.attempt_jump. -/
def attemptJump (p : Player) : Player :=
  if p.on_wall ≠ 0 ∧ p.on_ground = false then
    { p with vel_y := PLAYER_WALL_JUMP_Y,
             vel_x := (p.on_wall : ℚ) * (-PLAYER_WALL_JUMP_X),
             double_jump_available := true,
             wall_jump_timer := 5,
             jumped_this_frame := true }
  else if p.on_ground = true ∨ p.coyote_timer > 0 then
    { p with vel_y := PLAYER_JUMP_STRENGTH,
             on_ground := false,
             coyote_timer := 0,
             jumped_this_frame := true }
  else if p.double_jump_available = true then
    { p with vel_y := PLAYER_DOUBLE_JUMP_STRENGTH,
             double_jump_available := false,
             jumped_this_frame := true }
  else p

/-- Player.start_dash. -/
def startDash (p : Player) : Player :=
  { p with dashing := true,
           dash_timer := PLAYER_DASH_DURATION,
           dash_cooldown_timer := PLAYER_DASH_COOLDOWN,
           dash_direction := p.facing,
           vel_y := 0,
           invincible := true }

/-! Player.handle_input is split statement by statement; `handleInput`
composes the pieces in source order. -/

/-- handle_input: the LEFT branch. -/
def hiLeft (keys : Keys) (p : Player) : Player :=
  if keys.left then
    { p with vel_x := p.vel_x - PLAYER_ACCELERATION, facing := -1 }
  else p

/-- handle_input: the RIGHT branch. -/
def hiRight (keys : Keys) (p : Player) : Player :=
  if keys.right then
    { p with vel_x := p.vel_x + PLAYER_ACCELERATION, facing := 1 }
  else p

/-- handle_input: friction when no movement key is held. -/
def hiFriction (keys : Keys) (p : Player) : Player :=
  if keys.left || keys.right then p
  else { p with vel_x := p.vel_x * FRICTION }

/-- handle_input: the horizontal speed clamp. -/
def hiClamp (p : Player) : Player :=
  { p with vel_x := max (-PLAYER_MAX_SPEED) (min PLAYER_MAX_SPEED p.vel_x) }

/-- handle_input: jump key handling (edge-triggered buffer arming and
attempt, or release with the variable-jump-height cut). -/
def hiJump (keys : Keys) (p : Player) : Player :=
  if keys.jump then
    let q :=
      if p.jump_held then p
      else attemptJump { p with jump_buffer_timer := PLAYER_JUMP_BUFFER }
    { q with jump_held := true }
  else
    let q := { p with jump_held := false }
    if q.vel_y < 0 then { q with vel_y := q.vel_y * (1/2) } else q

/-- handle_input: dash key handling. -/
def hiDash (keys : Keys) (p : Player) : Player :=
  if keys.dash ∧ p.dash_cooldown_timer = 0 ∧ p.dashing = false then
    startDash p
  else p

/-- Player.handle_input. -/
def handleInput (keys : Keys) (p : Player) : Player :=
  if p.dashing then p
  else hiDash keys (hiJump keys (hiClamp (hiFriction keys
    (hiRight keys (hiLeft keys p)))))

/-! ### Collision passes (Player.handle_horizontal_collisions,
Player.handle_vertical_collisions) -/

/-- Body of the loop in Player.handle_horizontal_collisions for one
platform. -/
def hCollideOne (pl : Plat) (p : Player) : Player :=
  if pl.active = false then p
  else if p.rect.colliderect pl.rect then
    if p.vel_x > 0 then
      let q := { p with rect := { p.rect with x := pl.rect.x - p.rect.w },
                        vel_x := 0 }
      if q.on_ground = false ∧ q.wall_jump_timer = 0 then
        { q with on_wall := 1 }
      else q
    else if p.vel_x < 0 then
      let q := { p with rect := { p.rect with x := pl.rect.right },
                        vel_x := 0 }
      if q.on_ground = false ∧ q.wall_jump_timer = 0 then
        { q with on_wall := -1 }
      else q
    else p
  else p

def handleHorizontalCollisions (p : Player) (platforms : List Plat) : Player :=
  platforms.foldl (fun q pl => hCollideOne pl q) { p with on_wall := 0 }

/-- Body of the loop in Player.handle_vertical_collisions for one platform,
returning the updated player and the (possibly triggered) platform. -/
def vCollideOne (p : Player) (pl : Plat) : Player × Plat :=
  if pl.active = false then (p, pl)
  else if p.rect.colliderect pl.rect then
    if pl.ptype = PType.oneway then
      if p.vel_y > 0 ∧ p.rect.bottom - p.vel_y ≤ pl.rect.y + 10 then
        ({ p with rect := { p.rect with y := pl.rect.y - p.rect.h },
                  vel_y := 0, on_ground := true,
                  current_platform := some pl }, pl)
      else (p, pl)
    else
      if p.vel_y > 0 then
        let q := { p with rect := { p.rect with y := pl.rect.y - p.rect.h },
                          vel_y := 0, on_ground := true,
                          current_platform := some pl }
        -- every platform carries the friction attribute (set in __init__)
        let q := { q with vel_x := q.vel_x * (FRICTION * pl.friction) }
        let qpl : Player × Plat :=
          if pl.ptype = PType.bouncy then
            let q := { q with vel_y := pl.bounce_strength }
            if pl.kind = PKind.bouncyK then
              (q, { pl with bounce_animation := 10 })
            else (q, pl)
          else (q, pl)
        if qpl.2.ptype = PType.fall ∧ qpl.2.kind = PKind.falling then
          (qpl.1, platTrigger qpl.2)
        else qpl
      else if p.vel_y < 0 then
        ({ p with rect := { p.rect with y := pl.rect.bottom }, vel_y := 0 },
         pl)
      else (p, pl)
  else (p, pl)

def handleVerticalCollisions (p : Player) (platforms : List Plat) :
    Player × List Plat :=
  let init : Player × List Plat :=
    ({ p with on_ground := false, current_platform := none }, [])
  let acc := platforms.foldl
    (fun acc pl =>
      let r := vCollideOne acc.1 pl
      (r.1, r.2 :: acc.2)) init
  let q := acc.1
  let q :=
    if q.on_ground then
      match q.current_platform with
      | some c =>
        -- hasattr(platform, 'get_velocity') holds for MovingPlatform only
        if c.kind = PKind.moving then
          let v := movingGetVelocity c
          { q with rect := { q.rect with x := q.rect.x + v.1,
                                         y := q.rect.y + v.2 } }
        else q
      | none => q
    else q
  (q, acc.2.reverse)

/-! ### Damage, hazards, collectibles -/

/-- Player.take_damage. -/
def takeDamage (amount : ℤ) (p : Player) : Player :=
  if p.invincible then p
  else
    let h := p.health - amount
    if h > 0 then
      { p with health := h, invincible := true,
               invincibility_timer := PLAYER_INVINCIBILITY_FRAMES }
    else
      { p with health := 0 }

/-- Player.check_hazards: the first colliding hazard deals 1 damage (the
loop breaks after it). -/
def checkHazards (p : Player) (hazards : List Rect) : Player :=
  if p.invincible then p
  else
    match hazards.find? (fun hz => p.rect.colliderect hz) with
    | some _ => { takeDamage 1 p with damaged_this_frame := true }
    | none => p

inductive CKind
  | coin
  | powerup
deriving DecidableEq, Repr

@[ext]
structure Collectible where
  rect : Rect
  ctype : CKind
  value : ℤ
  collected : Bool
deriving DecidableEq, Repr

/-- Body of the loop in Player.check_collectibles for one collectible. -/
def collectOne (p : Player) (c : Collectible) : Player × Collectible :=
  if c.collected then (p, c)
  else if p.rect.colliderect c.rect then
    let q :=
      match c.ctype with
      | CKind.coin => { p with coins := p.coins + 1, score := p.score + c.value }
      | CKind.powerup =>
        { p with powered_up := true, powerup_timer := POWERUP_DURATION }
    (q, { c with collected := true })
  else (p, c)

def checkCollectibles (p : Player) (cs : List Collectible) :
    Player × List Collectible :=
  let acc := cs.foldl
    (fun acc c =>
      let r := collectOne acc.1 c
      (r.1, r.2 :: acc.2)) (p, ([] : List Collectible))
  (acc.1, acc.2.reverse)

/-! ### Player.update, split into its successive phases (the phase
boundaries follow the comment blocks in the source; `playerUpdate`
composes them in source order). -/

/-- Player.update: the flag resets at the top. -/
def resetFrameFlags (p : Player) : Player :=
  { p with landed_this_frame := false, jumped_this_frame := false,
           damaged_this_frame := false }

def tickCoyoteTimer (p : Player) : Player :=
  if p.coyote_timer > 0 then
    { p with coyote_timer := p.coyote_timer - 1 } else p

def tickJumpBufferTimer (p : Player) : Player :=
  if p.jump_buffer_timer > 0 then
    { p with jump_buffer_timer := p.jump_buffer_timer - 1 } else p

def tickDashCooldownTimer (p : Player) : Player :=
  if p.dash_cooldown_timer > 0 then
    { p with dash_cooldown_timer := p.dash_cooldown_timer - 1 } else p

def tickWallJumpTimer (p : Player) : Player :=
  if p.wall_jump_timer > 0 then
    { p with wall_jump_timer := p.wall_jump_timer - 1 } else p

def tickInvincibilityTimer (p : Player) : Player :=
  if p.invincibility_timer > 0 then
    let t := p.invincibility_timer - 1
    let q : Player := { p with invincibility_timer := t }
    if t = 0 then { q with invincible := false } else q
  else p

def tickPowerupTimer (p : Player) : Player :=
  if p.powerup_timer > 0 then
    let t := p.powerup_timer - 1
    let q : Player := { p with powerup_timer := t }
    if t = 0 then { q with powered_up := false } else q
  else p

/-- Flag resets and the timer-decrement block at the top of
Player.update, in source order. -/
def updateTimers (p : Player) : Player :=
  tickPowerupTimer (tickInvincibilityTimer (tickWallJumpTimer
    (tickDashCooldownTimer (tickJumpBufferTimer (tickCoyoteTimer
      (resetFrameFlags p))))))

/-- The dash block of Player.update: timer decrement and dash velocity. -/
def dashStep (p : Player) : Player :=
  { p with dash_timer := p.dash_timer - 1,
           vel_x := (p.dash_direction : ℚ) * PLAYER_DASH_SPEED,
           vel_y := 0 }

/-- The dash block of Player.update: dash end. -/
def dashEnd (p : Player) : Player :=
  if p.dash_timer ≤ 0 then
    { p with dashing := false, invincible := false,
             vel_x := (p.dash_direction : ℚ) * PLAYER_MAX_SPEED }
  else p

/-- The dash block of Player.update. -/
def dashPhase (p : Player) : Player :=
  if p.dashing then dashEnd (dashStep p) else p

def applyGravity (p : Player) : Player :=
  { p with vel_y := p.vel_y + GRAVITY }

/-- Wall sliding (the inner conditional has no else branch in the
source). -/
def wallSlide (p : Player) : Player :=
  if p.on_wall ≠ 0 ∧ p.on_ground = false ∧ p.vel_y > 0 then
    if p.wall_jump_timer = 0 then
      { p with wall_sliding := true,
               vel_y := min p.vel_y PLAYER_WALL_SLIDE_SPEED }
    else p
  else { p with wall_sliding := false }

def terminalCap (p : Player) : Player :=
  { p with vel_y := min p.vel_y TERMINAL_VELOCITY }

/-- Gravity, wall slide and terminal velocity (skipped while dashing). -/
def gravityPhase (p : Player) : Player :=
  if p.dashing then p
  else terminalCap (wallSlide (applyGravity p))

/-- Horizontal move + horizontal pass, then vertical move + vertical pass
(the source order: rect.x += vel_x; handle_horizontal_collisions;
rect.y += vel_y; handle_vertical_collisions). -/
def movePhase (p : Player) (platforms : List Plat) : Player × List Plat :=
  let p1 := handleHorizontalCollisions
    { p with rect := { p.rect with x := p.rect.x + p.vel_x } } platforms
  handleVerticalCollisions
    { p1 with rect := { p1.rect with y := p1.rect.y + p1.vel_y } } platforms

/-- Landing detection for squash/stretch. -/
def landDetect (prev_on_ground : Bool) (prev_y : ℚ) (p : Player) : Player :=
  if prev_on_ground = false ∧ p.on_ground = true ∧ |prev_y - p.rect.y| > 2 then
    let q : Player := { p with landed_this_frame := true,
                               squash_stretch := SQUASH_LAND }
    if |q.vel_y| > 5 then { q with last_ground_y := q.rect.y } else q
  else p

/-- Jump detection for squash/stretch. -/
def jumpStretch (p : Player) : Player :=
  if p.jumped_this_frame then { p with squash_stretch := STRETCH_JUMP } else p

/-- Squash/stretch recovery toward 1. -/
def squashRecover (p : Player) : Player :=
  if p.squash_stretch < 1 then
    let s := p.squash_stretch + SQUASH_RECOVERY_SPEED
    { p with squash_stretch := if s > 1 then 1 else s }
  else if p.squash_stretch > 1 then
    let s := p.squash_stretch - SQUASH_RECOVERY_SPEED
    { p with squash_stretch := if s < 1 then 1 else s }
  else p

/-- Landing detection and squash/stretch recovery. -/
def landingPhase (prev_on_ground : Bool) (prev_y : ℚ) (p : Player) : Player :=
  squashRecover (jumpStretch (landDetect prev_on_ground prev_y p))

/-- Coyote-time arming. -/
def coyoteArm (prev_on_ground : Bool) (p : Player) : Player :=
  if prev_on_ground = true ∧ p.on_ground = false ∧ p.vel_y ≥ 0 then
    { p with coyote_timer := PLAYER_COYOTE_TIME }
  else p

/-- Buffered-jump execution on landing. -/
def bufferedJump (p : Player) : Player :=
  if p.on_ground = true ∧ p.jump_buffer_timer > 0 then
    { attemptJump p with jump_buffer_timer := 0 }
  else p

/-- Double-jump refresh on ground or wall. -/
def djaRefresh (p : Player) : Player :=
  if p.on_ground = true ∨ p.on_wall ≠ 0 then
    { p with double_jump_available := true }
  else p

/-- Coyote-time arming, buffered-jump execution and double-jump refresh. -/
def coyoteAndBufferPhase (prev_on_ground : Bool) (p : Player) : Player :=
  djaRefresh (bufferedJump (coyoteArm prev_on_ground p))

/-- Fall death at the bottom of Player.update. -/
def fallDeathPhase (p : Player) : Player :=
  if p.rect.y > SCREEN_HEIGHT + 100 then takeDamage 999 p else p

/-- Player.update. -/
def playerUpdate (p : Player) (platforms : List Plat) (hazards : List Rect)
    (cs : List Collectible) : Player × List Plat × List Collectible :=
  let p := updateTimers p
  let p := dashPhase p
  let p := gravityPhase p
  let prev_on_ground := p.on_ground
  let prev_y := p.rect.y
  let m := movePhase p platforms
  let p := landingPhase prev_on_ground prev_y m.1
  let p := coyoteAndBufferPhase prev_on_ground p
  let p := checkHazards p hazards
  let cc := checkCollectibles p cs
  let p := fallDeathPhase cc.1
  (p, m.2, cc.2)

/-! ### Level and game tick (src/level.py, src/main.py) -/

def getActivePlatforms (platforms : List Plat) : List Plat :=
  platforms.filter (fun pl => pl.active)

/-- The per-platform part of Level.reset.  The source comment says
"Reset to original position" but the code assigns rect.y from original_x. -/
def levelResetPlat (pl : Plat) : Plat :=
  let pl := { pl with active := true }
  if pl.kind = PKind.falling then
    { pl with touched := false, falling := false, shake_timer := 0,
              fall_speed := 0, rect := { pl.rect with y := pl.original_x } }
  else pl

@[ext]
structure Game where
  player : Player
  platforms : List Plat
  hazards : List Rect
  collectibles : List Collectible
deriving DecidableEq, Repr

/-- Game.update_playing for enemy-free states: handle_input, then
player.update (which performs the collision passes against the platform
positions as they stand at tick entry), then Level.update, whose platform
loop advances every platform.  The player loops skip inactive platforms
themselves, so threading the full list is equivalent to the
get_active_platforms() pre-filtering of the call site. -/
def updatePlaying (keys : Keys) (g : Game) : Game :=
  let p := handleInput keys g.player
  let r := playerUpdate p g.platforms g.hazards g.collectibles
  { player := r.1,
    platforms := r.2.1.map platUpdate,
    hazards := g.hazards,
    collectibles := r.2.2 }

/-- Modelled from the spec: the ordering the specification prescribes
("all platform position updates for the tick must be computed before the
resolver's collision pass").  Platform updates run first, and the player
then resolves against the fresh positions.  This is the refinement
comparator for C1; `updatePlaying` above is the code's actual order. -/
def updatePlayingPlatformsFirst (keys : Keys) (g : Game) : Game :=
  let plats := g.platforms.map platUpdate
  let p := handleInput keys g.player
  let r := playerUpdate p plats g.hazards g.collectibles
  { player := r.1,
    platforms := r.2.1,
    hazards := g.hazards,
    collectibles := r.2.2 }

/-- One platform-free tick of the player alone: handle_input with no keys
followed by Player.update with empty platform, hazard and collectible
lists. -/
def playerTick0 (p : Player) : Player :=
  (playerUpdate (handleInput kNone p) [] [] []).1

def gameTicks (keys : Keys) : ℕ → Game → Game
  | 0, g => g
  | n + 1, g => gameTicks keys n (updatePlaying keys g)

def playerTicks : ℕ → Player → Player
  | 0, p => p
  | n + 1, p => playerTicks n (playerTick0 p)

/-! ### Helper lemmas: characterization equations for the small steps.

Each equation rewrites one step into a single record update, so that simp can
push state projections through the tick pipeline in the symbolic theorems
below. -/

section PhaseLemmas

variable (keys : Keys) (p : Player) (b : Bool) (y : ℚ) (n : ℤ)

theorem hiLeft_eq : hiLeft keys p =
    { p with vel_x := if keys.left then p.vel_x - PLAYER_ACCELERATION
                      else p.vel_x,
             facing := if keys.left then -1 else p.facing } := by
  unfold hiLeft; split_ifs <;> simp

theorem hiRight_eq : hiRight keys p =
    { p with vel_x := if keys.right then p.vel_x + PLAYER_ACCELERATION
                      else p.vel_x,
             facing := if keys.right then 1 else p.facing } := by
  unfold hiRight; split_ifs <;> simp

theorem hiFriction_eq : hiFriction keys p =
    { p with vel_x := if keys.left || keys.right then p.vel_x
                      else p.vel_x * FRICTION } := by
  unfold hiFriction; split_ifs <;> simp_all

theorem hiJump_rel_neg (hk : keys.jump = false) (hv : p.vel_y < 0) :
    hiJump keys p = { p with jump_held := false,
                             vel_y := p.vel_y * (1/2) } := by
  simp [hiJump, hk, hv]

theorem hiJump_rel_nonneg (hk : keys.jump = false) (hv : 0 ≤ p.vel_y) :
    hiJump keys p = { p with jump_held := false } := by
  have h2 : ¬ p.vel_y < 0 := by linarith
  simp [hiJump, hk, h2]

theorem hiJump_edge (hk : keys.jump = true) (hh : p.jump_held = false) :
    hiJump keys p =
      { attemptJump { p with jump_buffer_timer := PLAYER_JUMP_BUFFER } with
        jump_held := true } := by
  simp [hiJump, hk, hh]

theorem hiJump_held2 (hk : keys.jump = true) (hh : p.jump_held = true) :
    hiJump keys p = { p with jump_held := true } := by
  simp [hiJump, hk, hh]

theorem hiDash_not (hk : keys.dash = false) : hiDash keys p = p := by
  simp [hiDash, hk]

theorem handleInput_run (hd : p.dashing = false) :
    handleInput keys p = hiDash keys (hiJump keys (hiClamp (hiFriction keys
      (hiRight keys (hiLeft keys p))))) := by
  simp [handleInput, hd]

theorem handleInput_id (hd : p.dashing = true) : handleInput keys p = p := by
  simp [handleInput, hd]

theorem attemptJump_wall (h1 : ¬ p.on_wall = 0) (h2 : p.on_ground = false) :
    attemptJump p =
      { p with vel_y := PLAYER_WALL_JUMP_Y,
               vel_x := (p.on_wall : ℚ) * (-PLAYER_WALL_JUMP_X),
               double_jump_available := true, wall_jump_timer := 5,
               jumped_this_frame := true } := by
  simp [attemptJump, h1, h2]

theorem attemptJump_ground (h1 : p.on_wall = 0) (h2 : p.on_ground = true) :
    attemptJump p =
      { p with vel_y := PLAYER_JUMP_STRENGTH, on_ground := false,
               coyote_timer := 0, jumped_this_frame := true } := by
  simp [attemptJump, h1, h2]

theorem attemptJump_coyote (h1 : p.on_wall = 0) (h2 : p.on_ground = false)
    (h3 : 0 < p.coyote_timer) :
    attemptJump p =
      { p with vel_y := PLAYER_JUMP_STRENGTH, on_ground := false,
               coyote_timer := 0, jumped_this_frame := true } := by
  simp [attemptJump, h1, h2, h3]

theorem attemptJump_double (h1 : p.on_wall = 0) (h2 : p.on_ground = false)
    (h3 : p.coyote_timer = 0) (h4 : p.double_jump_available = true) :
    attemptJump p =
      { p with vel_y := PLAYER_DOUBLE_JUMP_STRENGTH,
               double_jump_available := false,
               jumped_this_frame := true } := by
  simp [attemptJump, h1, h2, h3, h4]

theorem attemptJump_none (h1 : p.on_wall = 0) (h2 : p.on_ground = false)
    (h3 : p.coyote_timer = 0) (h4 : p.double_jump_available = false) :
    attemptJump p = p := by
  simp [attemptJump, h1, h2, h3, h4]

/-- attempt_jump never touches the damage or dash state. -/
theorem attemptJump_pres :
    (attemptJump p).health = p.health ∧
    (attemptJump p).invincible = p.invincible ∧
    (attemptJump p).invincibility_timer = p.invincibility_timer ∧
    (attemptJump p).dashing = p.dashing ∧
    (attemptJump p).dash_timer = p.dash_timer ∧
    (attemptJump p).rect = p.rect ∧
    (attemptJump p).jump_held = p.jump_held := by
  unfold attemptJump; split_ifs <;> simp

theorem tickCoyoteTimer_eq :
    tickCoyoteTimer p = { p with coyote_timer := p.coyote_timer - 1 } := by
  unfold tickCoyoteTimer
  split_ifs with h
  · rfl
  · ext <;> simp <;> omega

theorem tickJumpBufferTimer_eq :
    tickJumpBufferTimer p =
      { p with jump_buffer_timer := p.jump_buffer_timer - 1 } := by
  unfold tickJumpBufferTimer
  split_ifs with h
  · rfl
  · ext <;> simp <;> omega

theorem tickDashCooldownTimer_eq :
    tickDashCooldownTimer p =
      { p with dash_cooldown_timer := p.dash_cooldown_timer - 1 } := by
  unfold tickDashCooldownTimer
  split_ifs with h
  · rfl
  · ext <;> simp <;> omega

theorem tickWallJumpTimer_eq :
    tickWallJumpTimer p =
      { p with wall_jump_timer := p.wall_jump_timer - 1 } := by
  unfold tickWallJumpTimer
  split_ifs with h
  · rfl
  · ext <;> simp <;> omega

theorem tickInvincibilityTimer_eq :
    tickInvincibilityTimer p =
      { p with invincibility_timer := p.invincibility_timer - 1,
               invincible := if p.invincibility_timer = 1 then false
                             else p.invincible } := by
  obtain h | h | h :
      p.invincibility_timer = 0 ∨ p.invincibility_timer = 1 ∨
        2 ≤ p.invincibility_timer := by omega
  · ext <;> simp [tickInvincibilityTimer, h]
  · ext <;> simp [tickInvincibilityTimer, h]
  · have h1 : p.invincibility_timer > 0 := by omega
    have h2 : ¬ (p.invincibility_timer - 1 = 0) := by omega
    have h3 : ¬ (p.invincibility_timer = 1) := by omega
    ext <;> simp [tickInvincibilityTimer, h1, h2, h3]

theorem tickPowerupTimer_eq :
    tickPowerupTimer p =
      { p with powerup_timer := p.powerup_timer - 1,
               powered_up := if p.powerup_timer = 1 then false
                             else p.powered_up } := by
  obtain h | h | h :
      p.powerup_timer = 0 ∨ p.powerup_timer = 1 ∨ 2 ≤ p.powerup_timer := by
    omega
  · ext <;> simp [tickPowerupTimer, h]
  · ext <;> simp [tickPowerupTimer, h]
  · have h1 : p.powerup_timer > 0 := by omega
    have h2 : ¬ (p.powerup_timer - 1 = 0) := by omega
    have h3 : ¬ (p.powerup_timer = 1) := by omega
    ext <;> simp [tickPowerupTimer, h1, h2, h3]

theorem updateTimers_eq :
    updateTimers p =
      { p with landed_this_frame := false, jumped_this_frame := false,
               damaged_this_frame := false,
               coyote_timer := p.coyote_timer - 1,
               jump_buffer_timer := p.jump_buffer_timer - 1,
               dash_cooldown_timer := p.dash_cooldown_timer - 1,
               wall_jump_timer := p.wall_jump_timer - 1,
               invincibility_timer := p.invincibility_timer - 1,
               invincible := if p.invincibility_timer = 1 then false
                             else p.invincible,
               powerup_timer := p.powerup_timer - 1,
               powered_up := if p.powerup_timer = 1 then false
                             else p.powered_up } := by
  simp [updateTimers, resetFrameFlags, tickCoyoteTimer_eq,
    tickJumpBufferTimer_eq, tickDashCooldownTimer_eq, tickWallJumpTimer_eq,
    tickInvincibilityTimer_eq, tickPowerupTimer_eq]

theorem dashEnd_stop (h : p.dash_timer ≤ 0) :
    dashEnd p = { p with dashing := false, invincible := false,
                         vel_x := (p.dash_direction : ℚ) * PLAYER_MAX_SPEED } := by
  simp [dashEnd, h]

theorem dashEnd_go (h : ¬ p.dash_timer ≤ 0) : dashEnd p = p := by
  simp [dashEnd, h]

theorem dashPhase_not (hd : p.dashing = false) : dashPhase p = p := by
  simp [dashPhase, hd]

theorem dashPhase_end (hd : p.dashing = true) (ht : p.dash_timer = 1) :
    dashPhase p = { p with dash_timer := 0,
                           vel_x := (p.dash_direction : ℚ) * PLAYER_MAX_SPEED,
                           vel_y := 0, dashing := false,
                           invincible := false } := by
  simp [dashPhase, dashStep, dashEnd, hd, ht]

theorem dashPhase_mid (hd : p.dashing = true) (ht : 2 ≤ p.dash_timer) :
    dashPhase p = { p with dash_timer := p.dash_timer - 1,
                           vel_x := (p.dash_direction : ℚ) * PLAYER_DASH_SPEED,
                           vel_y := 0 } := by
  have h2 : ¬ (p.dash_timer - 1 ≤ 0) := by omega
  simp [dashPhase, dashStep, dashEnd, hd, h2]

/-- The dash block never touches the listed fields. -/
theorem dashPhase_pres :
    (dashPhase p).on_ground = p.on_ground ∧
    (dashPhase p).on_wall = p.on_wall ∧
    (dashPhase p).coyote_timer = p.coyote_timer ∧
    (dashPhase p).jump_buffer_timer = p.jump_buffer_timer ∧
    (dashPhase p).health = p.health ∧
    (dashPhase p).invincibility_timer = p.invincibility_timer ∧
    (dashPhase p).rect = p.rect ∧
    (dashPhase p).jump_held = p.jump_held ∧
    (dashPhase p).double_jump_available = p.double_jump_available ∧
    (dashPhase p).jumped_this_frame = p.jumped_this_frame := by
  unfold dashPhase dashStep dashEnd; split_ifs <;> simp

theorem wallSlide_off (hw : p.on_wall = 0) :
    wallSlide p = { p with wall_sliding := false } := by
  simp [wallSlide, hw]

theorem wallSlide_grounded (hg : p.on_ground = true) :
    wallSlide p = { p with wall_sliding := false } := by
  simp [wallSlide, hg]

/-- Wall sliding only touches wall_sliding and vel_y. -/
theorem wallSlide_pres :
    (wallSlide p).on_ground = p.on_ground ∧
    (wallSlide p).on_wall = p.on_wall ∧
    (wallSlide p).coyote_timer = p.coyote_timer ∧
    (wallSlide p).jump_buffer_timer = p.jump_buffer_timer ∧
    (wallSlide p).health = p.health ∧
    (wallSlide p).invincible = p.invincible ∧
    (wallSlide p).invincibility_timer = p.invincibility_timer ∧
    (wallSlide p).dashing = p.dashing ∧
    (wallSlide p).dash_timer = p.dash_timer ∧
    (wallSlide p).rect = p.rect ∧
    (wallSlide p).jump_held = p.jump_held ∧
    (wallSlide p).double_jump_available = p.double_jump_available ∧
    (wallSlide p).jumped_this_frame = p.jumped_this_frame := by
  unfold wallSlide; split_ifs <;> simp

theorem gravityPhase_run (hd : p.dashing = false) :
    gravityPhase p = terminalCap (wallSlide (applyGravity p)) := by
  simp [gravityPhase, hd]

theorem gravityPhase_id (hd : p.dashing = true) : gravityPhase p = p := by
  simp [gravityPhase, hd]

theorem gravityPhase_air (hd : p.dashing = false) (hw : p.on_wall = 0) :
    gravityPhase p =
      { p with vel_y := min (p.vel_y + GRAVITY) TERMINAL_VELOCITY,
               wall_sliding := false } := by
  rw [gravityPhase_run p hd]
  rw [show wallSlide (applyGravity p) =
        { applyGravity p with wall_sliding := false } from
      wallSlide_off (applyGravity p) hw]
  simp [applyGravity, terminalCap]

theorem mp_nil : movePhase p [] =
    ({ p with rect := ⟨p.rect.x + p.vel_x, p.rect.y + p.vel_y, p.rect.w,
                       p.rect.h⟩,
              on_wall := 0, on_ground := false, current_platform := none },
     []) := by
  simp [movePhase, handleHorizontalCollisions, handleVerticalCollisions]

theorem landDetect_skip (hg : p.on_ground = false) : landDetect b y p = p := by
  simp [landDetect, hg]

theorem jumpStretch_skip (hj : p.jumped_this_frame = false) :
    jumpStretch p = p := by
  simp [jumpStretch, hj]

/-- Squash/stretch recovery only touches squash_stretch. -/
theorem squashRecover_pres :
    (squashRecover p).on_ground = p.on_ground ∧
    (squashRecover p).on_wall = p.on_wall ∧
    (squashRecover p).coyote_timer = p.coyote_timer ∧
    (squashRecover p).jump_buffer_timer = p.jump_buffer_timer ∧
    (squashRecover p).health = p.health ∧
    (squashRecover p).invincible = p.invincible ∧
    (squashRecover p).invincibility_timer = p.invincibility_timer ∧
    (squashRecover p).dashing = p.dashing ∧
    (squashRecover p).dash_timer = p.dash_timer ∧
    (squashRecover p).rect = p.rect ∧
    (squashRecover p).jump_held = p.jump_held ∧
    (squashRecover p).double_jump_available = p.double_jump_available ∧
    (squashRecover p).jumped_this_frame = p.jumped_this_frame ∧
    (squashRecover p).vel_x = p.vel_x ∧
    (squashRecover p).vel_y = p.vel_y := by
  unfold squashRecover; split_ifs <;> simp

/-- Landing detection only touches landed_this_frame, squash_stretch and
last_ground_y. -/
theorem landDetect_pres :
    (landDetect b y p).on_ground = p.on_ground ∧
    (landDetect b y p).on_wall = p.on_wall ∧
    (landDetect b y p).coyote_timer = p.coyote_timer ∧
    (landDetect b y p).jump_buffer_timer = p.jump_buffer_timer ∧
    (landDetect b y p).health = p.health ∧
    (landDetect b y p).invincible = p.invincible ∧
    (landDetect b y p).invincibility_timer = p.invincibility_timer ∧
    (landDetect b y p).dashing = p.dashing ∧
    (landDetect b y p).dash_timer = p.dash_timer ∧
    (landDetect b y p).rect = p.rect ∧
    (landDetect b y p).jump_held = p.jump_held ∧
    (landDetect b y p).double_jump_available = p.double_jump_available ∧
    (landDetect b y p).jumped_this_frame = p.jumped_this_frame ∧
    (landDetect b y p).vel_x = p.vel_x ∧
    (landDetect b y p).vel_y = p.vel_y := by
  unfold landDetect; split_ifs <;> simp [apply_ite]

theorem jumpStretch_pres :
    (jumpStretch p).on_ground = p.on_ground ∧
    (jumpStretch p).on_wall = p.on_wall ∧
    (jumpStretch p).coyote_timer = p.coyote_timer ∧
    (jumpStretch p).jump_buffer_timer = p.jump_buffer_timer ∧
    (jumpStretch p).health = p.health ∧
    (jumpStretch p).invincible = p.invincible ∧
    (jumpStretch p).invincibility_timer = p.invincibility_timer ∧
    (jumpStretch p).dashing = p.dashing ∧
    (jumpStretch p).dash_timer = p.dash_timer ∧
    (jumpStretch p).rect = p.rect ∧
    (jumpStretch p).jump_held = p.jump_held ∧
    (jumpStretch p).double_jump_available = p.double_jump_available ∧
    (jumpStretch p).jumped_this_frame = p.jumped_this_frame ∧
    (jumpStretch p).vel_x = p.vel_x ∧
    (jumpStretch p).vel_y = p.vel_y := by
  unfold jumpStretch; split_ifs <;> simp

theorem coyoteArm_skip (hb : b = false) : coyoteArm b p = p := by
  simp [coyoteArm, hb]

theorem coyoteArm_arm (hb : b = true) (hg : p.on_ground = false)
    (hv : 0 ≤ p.vel_y) :
    coyoteArm b p = { p with coyote_timer := PLAYER_COYOTE_TIME } := by
  simp [coyoteArm, hb, hg, hv]

/-- Coyote arming only touches coyote_timer. -/
theorem coyoteArm_pres :
    (coyoteArm b p).on_ground = p.on_ground ∧
    (coyoteArm b p).on_wall = p.on_wall ∧
    (coyoteArm b p).jump_buffer_timer = p.jump_buffer_timer ∧
    (coyoteArm b p).health = p.health ∧
    (coyoteArm b p).invincible = p.invincible ∧
    (coyoteArm b p).invincibility_timer = p.invincibility_timer ∧
    (coyoteArm b p).dashing = p.dashing ∧
    (coyoteArm b p).dash_timer = p.dash_timer ∧
    (coyoteArm b p).rect = p.rect ∧
    (coyoteArm b p).jump_held = p.jump_held ∧
    (coyoteArm b p).double_jump_available = p.double_jump_available ∧
    (coyoteArm b p).jumped_this_frame = p.jumped_this_frame ∧
    (coyoteArm b p).vel_x = p.vel_x ∧
    (coyoteArm b p).vel_y = p.vel_y := by
  unfold coyoteArm; split_ifs <;> simp

theorem bufferedJump_skip (hg : p.on_ground = false) : bufferedJump p = p := by
  simp [bufferedJump, hg]

theorem bufferedJump_go (hg : p.on_ground = true)
    (hb : 0 < p.jump_buffer_timer) :
    bufferedJump p = { attemptJump p with jump_buffer_timer := 0 } := by
  simp [bufferedJump, hg, hb]

/-- The buffered jump never touches the damage or dash state. -/
theorem bufferedJump_pres :
    (bufferedJump p).health = p.health ∧
    (bufferedJump p).invincible = p.invincible ∧
    (bufferedJump p).invincibility_timer = p.invincibility_timer ∧
    (bufferedJump p).dashing = p.dashing ∧
    (bufferedJump p).dash_timer = p.dash_timer ∧
    (bufferedJump p).rect = p.rect ∧
    (bufferedJump p).jump_held = p.jump_held := by
  unfold bufferedJump
  have h := attemptJump_pres p
  split_ifs <;> simp_all

theorem djaRefresh_skip (hg : p.on_ground = false) (hw : p.on_wall = 0) :
    djaRefresh p = p := by
  simp [djaRefresh, hg, hw]

/-- The double-jump refresh only touches double_jump_available. -/
theorem djaRefresh_pres :
    (djaRefresh p).on_ground = p.on_ground ∧
    (djaRefresh p).on_wall = p.on_wall ∧
    (djaRefresh p).coyote_timer = p.coyote_timer ∧
    (djaRefresh p).jump_buffer_timer = p.jump_buffer_timer ∧
    (djaRefresh p).health = p.health ∧
    (djaRefresh p).invincible = p.invincible ∧
    (djaRefresh p).invincibility_timer = p.invincibility_timer ∧
    (djaRefresh p).dashing = p.dashing ∧
    (djaRefresh p).dash_timer = p.dash_timer ∧
    (djaRefresh p).rect = p.rect ∧
    (djaRefresh p).jump_held = p.jump_held ∧
    (djaRefresh p).jumped_this_frame = p.jumped_this_frame ∧
    (djaRefresh p).vel_x = p.vel_x ∧
    (djaRefresh p).vel_y = p.vel_y := by
  unfold djaRefresh; split_ifs <;> simp

theorem checkHazards_nil : checkHazards p [] = p := by
  simp [checkHazards, List.find?]

theorem checkCollectibles_nil : checkCollectibles p [] = (p, []) := rfl

theorem takeDamage_id (hi : p.invincible = true) : takeDamage n p = p := by
  simp [takeDamage, hi]

theorem takeDamage_hit (hi : p.invincible = false) (hh : 0 < p.health - n) :
    takeDamage n p =
      { p with health := p.health - n, invincible := true,
               invincibility_timer := PLAYER_INVINCIBILITY_FRAMES } := by
  simp [takeDamage, hi, hh]

theorem takeDamage_lethal (hi : p.invincible = false)
    (hh : ¬ 0 < p.health - n) :
    takeDamage n p = { p with health := 0 } := by
  simp [takeDamage, hi, hh]

/-- take_damage only touches health, invincible and invincibility_timer. -/
theorem takeDamage_pres :
    (takeDamage n p).on_ground = p.on_ground ∧
    (takeDamage n p).on_wall = p.on_wall ∧
    (takeDamage n p).coyote_timer = p.coyote_timer ∧
    (takeDamage n p).jump_buffer_timer = p.jump_buffer_timer ∧
    (takeDamage n p).dashing = p.dashing ∧
    (takeDamage n p).dash_timer = p.dash_timer ∧
    (takeDamage n p).rect = p.rect ∧
    (takeDamage n p).jump_held = p.jump_held ∧
    (takeDamage n p).double_jump_available = p.double_jump_available ∧
    (takeDamage n p).jumped_this_frame = p.jumped_this_frame ∧
    (takeDamage n p).vel_x = p.vel_x ∧
    (takeDamage n p).vel_y = p.vel_y := by
  unfold takeDamage; split_ifs <;> simp [apply_ite]

theorem fallDeathPhase_pres :
    (fallDeathPhase p).on_ground = p.on_ground ∧
    (fallDeathPhase p).on_wall = p.on_wall ∧
    (fallDeathPhase p).coyote_timer = p.coyote_timer ∧
    (fallDeathPhase p).jump_buffer_timer = p.jump_buffer_timer ∧
    (fallDeathPhase p).dashing = p.dashing ∧
    (fallDeathPhase p).dash_timer = p.dash_timer ∧
    (fallDeathPhase p).rect = p.rect ∧
    (fallDeathPhase p).jump_held = p.jump_held ∧
    (fallDeathPhase p).double_jump_available = p.double_jump_available ∧
    (fallDeathPhase p).jumped_this_frame = p.jumped_this_frame ∧
    (fallDeathPhase p).vel_x = p.vel_x ∧
    (fallDeathPhase p).vel_y = p.vel_y := by
  unfold fallDeathPhase
  have h := takeDamage_pres p 999
  split_ifs <;> simp_all

theorem fallDeathPhase_id (hi : p.invincible = true) :
    fallDeathPhase p = p := by
  unfold fallDeathPhase
  split_ifs <;> simp [takeDamage_id, hi]

theorem fallDeathPhase_mortal_health (hi : p.invincible = false)
    (hh : p.health ≤ 999) :
    (fallDeathPhase p).health =
      if p.rect.y > SCREEN_HEIGHT + 100 then 0 else p.health := by
  have h2 : ¬ 0 < p.health - 999 := by omega
  unfold fallDeathPhase
  split_ifs with h3 <;> simp [takeDamage_lethal, hi, h2]

theorem fallDeathPhase_mortal_inv (hi : p.invincible = false)
    (hh : p.health ≤ 999) : (fallDeathPhase p).invincible = false := by
  have h2 : ¬ 0 < p.health - 999 := by omega
  unfold fallDeathPhase
  split_ifs with h3 <;> simp [takeDamage_lethal, hi, h2]

theorem fallDeathPhase_inv_health (hi : p.invincible = true) :
    (fallDeathPhase p).health = p.health := by
  simp [fallDeathPhase_id, hi]

/-- The first projection of Player.update as the phase pipeline. -/
theorem playerUpdate_fst (q : Player) (plats : List Plat) (hz : List Rect)
    (cs : List Collectible) :
    (playerUpdate q plats hz cs).1 =
      fallDeathPhase
        (checkCollectibles
          (checkHazards
            (coyoteAndBufferPhase (gravityPhase (dashPhase (updateTimers q))).on_ground
              (landingPhase (gravityPhase (dashPhase (updateTimers q))).on_ground
                (gravityPhase (dashPhase (updateTimers q))).rect.y
                (movePhase (gravityPhase (dashPhase (updateTimers q))) plats).1))
            hz) cs).1 := rfl

theorem hiJump_rel (hk : keys.jump = false) :
    hiJump keys p =
      { p with jump_held := false,
               vel_y := if p.vel_y < 0 then p.vel_y * (1/2) else p.vel_y } := by
  simp only [hiJump, hk]
  norm_num
  split_ifs <;> simp

end PhaseLemmas

/-! ### Tick-level lemmas on platform-free states -/

section TickLemmas

variable (p : Player)

/-- One no-input tick of an airborne, wall-free, non-dashing player with
downward-or-zero velocity and no platforms: it stays airborne and wall-free,
the coyote and buffer timers count down, and velocity stays downward. -/
theorem tickAir (hd : p.dashing = false) (hg : p.on_ground = false)
    (hw : p.on_wall = 0) (hv : 0 ≤ p.vel_y) :
    (playerTick0 p).on_ground = false ∧
    (playerTick0 p).on_wall = 0 ∧
    (playerTick0 p).dashing = false ∧
    (playerTick0 p).jump_held = false ∧
    (playerTick0 p).coyote_timer = p.coyote_timer - 1 ∧
    (playerTick0 p).jump_buffer_timer = p.jump_buffer_timer - 1 ∧
    (playerTick0 p).vel_y = min (p.vel_y + GRAVITY) TERMINAL_VELOCITY := by
  simp only [playerTick0, playerUpdate_fst, landingPhase, coyoteAndBufferPhase]
  simp [handleInput_run, hd, hiLeft_eq, hiRight_eq, hiFriction_eq, hiClamp,
    hiJump_rel, hiDash_not, kNone, hv, updateTimers_eq, dashPhase_not,
    gravityPhase_air, hw, mp_nil, landDetect_skip, jumpStretch_skip,
    squashRecover_pres, coyoteArm_skip, hg, bufferedJump_skip, djaRefresh_skip,
    checkHazards_nil, checkCollectibles_nil, fallDeathPhase_pres,
    not_lt.mpr hv]

/-- The tick in which a grounded, non-dashing player with downward-or-zero
velocity finds no platform below: it comes out airborne with the coyote
timer armed to PLAYER_COYOTE_TIME. -/
theorem tickGroundLeave (hd : p.dashing = false) (hg : p.on_ground = true)
    (hv : 0 ≤ p.vel_y) :
    (playerTick0 p).on_ground = false ∧
    (playerTick0 p).on_wall = 0 ∧
    (playerTick0 p).dashing = false ∧
    (playerTick0 p).jump_held = false ∧
    (playerTick0 p).coyote_timer = PLAYER_COYOTE_TIME ∧
    (playerTick0 p).vel_y = min (p.vel_y + GRAVITY) TERMINAL_VELOCITY := by
  have hvg : (0:ℚ) ≤ min (p.vel_y + GRAVITY) TERMINAL_VELOCITY := by
    rw [le_min_iff]
    constructor
    · have : (0:ℚ) < GRAVITY := by norm_num [GRAVITY]
      linarith
    · norm_num [TERMINAL_VELOCITY]
  simp only [playerTick0, playerUpdate_fst, landingPhase, coyoteAndBufferPhase]
  simp [handleInput_run, hd, hiLeft_eq, hiRight_eq, hiFriction_eq, hiClamp,
    hiJump_rel, hiDash_not, kNone, hv, updateTimers_eq, dashPhase_not,
    gravityPhase_run, wallSlide_grounded, applyGravity, terminalCap, hg,
    mp_nil, landDetect_skip, jumpStretch_skip,
    squashRecover_pres, coyoteArm_arm, hvg, bufferedJump_skip,
    djaRefresh_skip, checkHazards_nil, checkCollectibles_nil,
    fallDeathPhase_pres, not_lt.mpr hv]

/-- One no-input tick of an invincible, non-dashing player with at least two
ticks left on the invincibility window and no platforms or hazards: the
window counts down, invincibility holds, and health is untouched. -/
theorem tickInvincible (hi : p.invincible = true) (hd : p.dashing = false)
    (ht : 2 ≤ p.invincibility_timer) :
    (playerTick0 p).invincible = true ∧
    (playerTick0 p).invincibility_timer = p.invincibility_timer - 1 ∧
    (playerTick0 p).health = p.health ∧
    (playerTick0 p).dashing = false := by
  have hne : ¬ (p.invincibility_timer = 1) := by omega
  simp only [playerTick0, playerUpdate_fst, landingPhase, coyoteAndBufferPhase]
  simp [handleInput_run, hd, hiLeft_eq, hiRight_eq, hiFriction_eq, hiClamp,
    hiJump_rel, hiDash_not, kNone, updateTimers_eq, dashPhase_not,
    gravityPhase_run, wallSlide_pres, applyGravity, terminalCap, mp_nil,
    landDetect_skip, jumpStretch_skip, squashRecover_pres, coyoteArm_pres,
    bufferedJump_skip, djaRefresh_skip, checkHazards_nil, checkCollectibles_nil,
    fallDeathPhase_id, hi, hne]

/-- A jump attempt (fresh jump key press) while airborne, wall-free and
inside the coyote window takes the ground/coyote branch. -/
theorem jumpAttempt_coyote (hd : p.dashing = false) (hh : p.jump_held = false)
    (hw : p.on_wall = 0) (hg : p.on_ground = false)
    (hc : 0 < p.coyote_timer) :
    (handleInput kJump p).vel_y = PLAYER_JUMP_STRENGTH ∧
    (handleInput kJump p).coyote_timer = 0 ∧
    (handleInput kJump p).jumped_this_frame = true := by
  simp [handleInput_run, hd, hiLeft_eq, hiRight_eq, hiFriction_eq, hiClamp,
    hiJump_edge, hh, kJump, attemptJump_coyote, hw, hg, hc, hiDash_not]

/-- A jump attempt while airborne, wall-free, with the coyote window expired
and downward-or-zero velocity does not take the ground/coyote branch: it
falls through to the double jump or does nothing. -/
theorem jumpAttempt_fail (hd : p.dashing = false) (hh : p.jump_held = false)
    (hw : p.on_wall = 0) (hg : p.on_ground = false)
    (hc : p.coyote_timer = 0) (hv : 0 ≤ p.vel_y) :
    (handleInput kJump p).vel_y ≠ PLAYER_JUMP_STRENGTH := by
  by_cases hdj : p.double_jump_available = true
  · simp [handleInput_run, hd, hiLeft_eq, hiRight_eq, hiFriction_eq, hiClamp,
      hiJump_edge, hh, kJump, attemptJump_double, hw, hg, hc, hdj, hiDash_not]
    norm_num [PLAYER_DOUBLE_JUMP_STRENGTH, PLAYER_JUMP_STRENGTH]
  · have hdj2 : p.double_jump_available = false := by
      revert hdj; cases p.double_jump_available <;> simp
    simp [handleInput_run, hd, hiLeft_eq, hiRight_eq, hiFriction_eq, hiClamp,
      hiJump_edge, hh, kJump, attemptJump_none, hw, hg, hc, hdj2, hiDash_not]
    intro hcontra
    rw [hcontra] at hv
    norm_num [PLAYER_JUMP_STRENGTH] at hv

end TickLemmas

/-! ### Iterated platform-free ticks -/

theorem playerTicks_air (j : ℕ) :
    ∀ q : Player, q.dashing = false → q.on_ground = false → q.on_wall = 0 →
    q.jump_held = false → 0 ≤ q.vel_y →
    (playerTicks j q).dashing = false ∧
    (playerTicks j q).on_ground = false ∧
    (playerTicks j q).on_wall = 0 ∧
    (playerTicks j q).jump_held = false ∧
    0 ≤ (playerTicks j q).vel_y ∧
    (playerTicks j q).coyote_timer = q.coyote_timer - j := by
  induction j with
  | zero =>
    intro q h1 h2 h3 h4 h5
    exact ⟨h1, h2, h3, h4, h5, rfl⟩
  | succ n ih =>
    intro q h1 h2 h3 h4 h5
    obtain ⟨a1, a2, a3, a4, a5, a6, a7⟩ := tickAir q h1 h2 h3 h5
    have hvy : 0 ≤ (playerTick0 q).vel_y := by
      rw [a7, le_min_iff]
      constructor
      · have hG : (0:ℚ) < GRAVITY := by norm_num [GRAVITY]
        linarith
      · norm_num [TERMINAL_VELOCITY]
    obtain ⟨b1, b2, b3, b4, b5, b6⟩ := ih (playerTick0 q) a3 a1 a2 a4 hvy
    refine ⟨b1, b2, b3, b4, b5, ?_⟩
    show (playerTicks n (playerTick0 q)).coyote_timer = q.coyote_timer - (n + 1)
    rw [b6, a5]
    omega

theorem playerTicks_inv (j : ℕ) :
    ∀ q : Player, q.invincible = true → q.dashing = false →
    j < q.invincibility_timer →
    (playerTicks j q).invincible = true ∧
    (playerTicks j q).invincibility_timer = q.invincibility_timer - j ∧
    (playerTicks j q).health = q.health ∧
    (playerTicks j q).dashing = false := by
  induction j with
  | zero =>
    intro q h1 h2 h3
    exact ⟨h1, rfl, rfl, h2⟩
  | succ n ih =>
    intro q h1 h2 h3
    have ht : 2 ≤ q.invincibility_timer := by omega
    obtain ⟨a1, a2, a3, a4⟩ := tickInvincible q h1 h2 ht
    have hlt : n < (playerTick0 q).invincibility_timer := by
      rw [a2]; omega
    obtain ⟨b1, b2, b3, b4⟩ := ih (playerTick0 q) a1 a4 hlt
    refine ⟨b1, ?_, ?_, b4⟩
    · show (playerTicks n (playerTick0 q)).invincibility_timer =
        q.invincibility_timer - (n + 1)
      rw [b2, a2]
      omega
    · show (playerTicks n (playerTick0 q)).health = q.health
      rw [b3, a3]

/-! ### Claim theorems -/

/-- Claim C5 (confirmed): a player that transitions from grounded to
airborne (walks off all support) during a tick with downward-or-zero
vertical velocity comes out of that tick at tick T with the coyote timer
armed to PLAYER_COYOTE_TIME = 6.  A jump attempt (fresh jump key press) at
any of the following ticks T+j with j < 6 succeeds as a ground/coyote jump,
applying PLAYER_JUMP_STRENGTH and clearing the coyote timer; at T+6 the
coyote timer is 0 and the attempt does not take the ground/coyote branch
(it falls through to the double jump or is a no-op). -/
theorem C5_coyote_window (p : Player) (hd : p.dashing = false)
    (hg : p.on_ground = true) (hv : 0 ≤ p.vel_y) :
    (playerTick0 p).coyote_timer = PLAYER_COYOTE_TIME ∧
    (playerTick0 p).on_ground = false ∧
    (∀ j, j < 6 →
      (handleInput kJump (playerTicks j (playerTick0 p))).vel_y =
          PLAYER_JUMP_STRENGTH ∧
      (handleInput kJump (playerTicks j (playerTick0 p))).coyote_timer = 0 ∧
      (handleInput kJump (playerTicks j (playerTick0 p))).jumped_this_frame
          = true) ∧
    (playerTicks 6 (playerTick0 p)).coyote_timer = 0 ∧
    (handleInput kJump (playerTicks 6 (playerTick0 p))).vel_y ≠
        PLAYER_JUMP_STRENGTH := by
  obtain ⟨g1, g2, g3, g4, g5, g6⟩ := tickGroundLeave p hd hg hv
  have hv1 : 0 ≤ (playerTick0 p).vel_y := by
    rw [g6, le_min_iff]
    constructor
    · have hG : (0:ℚ) < GRAVITY := by norm_num [GRAVITY]
      linarith
    · norm_num [TERMINAL_VELOCITY]
  refine ⟨g5, g1, ?_, ?_, ?_⟩
  · intro j hj
    obtain ⟨b1, b2, b3, b4, b5, b6⟩ :=
      playerTicks_air j (playerTick0 p) g3 g1 g2 g4 hv1
    have hc : 0 < (playerTicks j (playerTick0 p)).coyote_timer := by
      rw [b6, g5]
      simp only [PLAYER_COYOTE_TIME]
      omega
    exact jumpAttempt_coyote _ b1 b4 b3 b2 hc
  · obtain ⟨b1, b2, b3, b4, b5, b6⟩ :=
      playerTicks_air 6 (playerTick0 p) g3 g1 g2 g4 hv1
    rw [b6, g5]
    rfl
  · obtain ⟨b1, b2, b3, b4, b5, b6⟩ :=
      playerTicks_air 6 (playerTick0 p) g3 g1 g2 g4 hv1
    have hc : (playerTicks 6 (playerTick0 p)).coyote_timer = 0 := by
      rw [b6, g5]
      rfl
    exact jumpAttempt_fail _ b1 b4 b3 b2 hc b5

/-- Claim C6 (confirmed): take_damage is a no-op while invincible; a
successful hit that leaves health positive arms the 90-tick invincibility
window; and two take_damage(1) calls separated by at most 89 platform-free
ticks reduce health by exactly 1, because the second call lands inside the
window. -/
theorem C6_damage_invincibility :
    (∀ (n : ℤ) (p : Player), p.invincible = true → takeDamage n p = p) ∧
    (∀ (n : ℤ) (p : Player), p.invincible = false → 0 < p.health - n →
      (takeDamage n p).health = p.health - n ∧
      (takeDamage n p).invincible = true ∧
      (takeDamage n p).invincibility_timer = PLAYER_INVINCIBILITY_FRAMES) ∧
    (∀ (p : Player) (j : ℕ), p.invincible = false → p.dashing = false →
      2 ≤ p.health → j ≤ 89 →
      (takeDamage 1 (playerTicks j (takeDamage 1 p))).health =
        p.health - 1) := by
  refine ⟨?_, ?_, ?_⟩
  · intro n p hi
    exact takeDamage_id p n hi
  · intro n p hi hh
    rw [takeDamage_hit p n hi hh]
    exact ⟨rfl, rfl, rfl⟩
  · intro p j hi hd hh hj
    have h1 : 0 < p.health - 1 := by omega
    rw [takeDamage_hit p 1 hi h1]
    set q : Player :=
      { p with health := p.health - 1, invincible := true,
               invincibility_timer := PLAYER_INVINCIBILITY_FRAMES } with hq
    have hqi : q.invincible = true := rfl
    have hqd : q.dashing = false := hd
    have hqt : j < q.invincibility_timer := by
      show j < PLAYER_INVINCIBILITY_FRAMES
      simp only [PLAYER_INVINCIBILITY_FRAMES]
      omega
    obtain ⟨b1, b2, b3, b4⟩ := playerTicks_inv j q hqi hqd hqt
    rw [takeDamage_id _ 1 b1, b3]

/-- Claim C10 (confirmed): dash invincibility and damage invincibility
share the single invincible flag.  On the tick in which the dash timer
reaches zero, Player.update clears invincible unconditionally, even with
an arbitrary damage-invincibility window still running; conversely, the
invincibility timer reaching zero clears invincible even while the dash is
still in progress. -/
theorem C10_shared_invincible_flag (p : Player) (hh : p.health ≤ 999) :
    (p.dashing = true → p.dash_timer = 1 →
      (playerUpdate p [] [] []).1.invincible = false ∧
      (playerUpdate p [] [] []).1.dashing = false) ∧
    (p.dashing = true → 2 ≤ p.dash_timer → p.invincibility_timer = 1 →
      (playerUpdate p [] [] []).1.invincible = false ∧
      (playerUpdate p [] [] []).1.dashing = true) := by
  constructor
  · intro hd ht
    simp only [playerUpdate_fst, landingPhase, coyoteAndBufferPhase]
    simp [updateTimers_eq, dashPhase_end, hd, ht, gravityPhase_run,
      wallSlide_pres, applyGravity, terminalCap, mp_nil, landDetect_skip,
      jumpStretch_skip, squashRecover_pres, coyoteArm_pres, bufferedJump_skip,
      djaRefresh_skip, checkHazards_nil, checkCollectibles_nil,
      fallDeathPhase_pres, fallDeathPhase_mortal_inv, hh, apply_ite]
  · intro hd ht hit
    simp only [playerUpdate_fst, landingPhase, coyoteAndBufferPhase]
    simp [updateTimers_eq, dashPhase_mid, hd, ht, hit, gravityPhase_id,
      mp_nil, landDetect_skip, jumpStretch_skip, squashRecover_pres,
      coyoteArm_pres, bufferedJump_skip, djaRefresh_skip, checkHazards_nil,
      checkCollectibles_nil, fallDeathPhase_pres, fallDeathPhase_mortal_inv,
      hh, apply_ite]

/-- Claim C9 (corrected): the fall-death check at the end of Player.update
applies take_damage(999) when the player ends the tick more than 100 units
below the screen; since health never exceeds 999, this zeroes health — but
only when the player is not invincible at that point.  While invincible the
call is a no-op and health is unchanged (see C9_counterexample). -/
theorem C9_amended (p : Player) (hd : p.dashing = false) :
    (p.invincible = false → p.health ≤ 999 →
      ((playerTick0 p).rect.y > SCREEN_HEIGHT + 100 →
        (playerTick0 p).health = 0)) ∧
    (p.invincible = true → 2 ≤ p.invincibility_timer →
      (playerTick0 p).health = p.health) := by
  constructor
  · intro hi hh
    have E : (playerTick0 p).health =
        (if (playerTick0 p).rect.y > SCREEN_HEIGHT + 100 then 0
         else p.health) := by
      simp only [playerTick0, playerUpdate_fst, landingPhase,
        coyoteAndBufferPhase]
      simp [handleInput_run, hd, hiLeft_eq, hiRight_eq, hiFriction_eq,
        hiClamp, hiJump_rel, hiDash_not, kNone, updateTimers_eq,
        dashPhase_not, gravityPhase_run, wallSlide_pres, applyGravity,
        terminalCap, mp_nil, landDetect_skip, jumpStretch_skip,
        squashRecover_pres, coyoteArm_pres, bufferedJump_skip,
        djaRefresh_skip, checkHazards_nil, checkCollectibles_nil,
        fallDeathPhase_pres, fallDeathPhase_mortal_health, hi, hh]
    intro hy
    rw [E, if_pos hy]
  · intro hi ht
    exact (tickInvincible p hi hd ht).2.2.1

/-- Claim C2 (corrected): with the jump key up and no dash starting, any
call to handle_input while the player is ascending halves vel_y — the cut
is applied on every such tick, not once per release edge (see
C2_counterexample). -/
theorem C2_amended (keys : Keys) (p : Player) (hd : p.dashing = false)
    (hk : keys.jump = false) (hkd : keys.dash = false) (hv : p.vel_y < 0) :
    (handleInput keys p).vel_y = p.vel_y * (1/2) ∧
    (handleInput keys p).jump_held = false := by
  simp [handleInput_run, hd, hiLeft_eq, hiRight_eq, hiFriction_eq, hiClamp,
    hiJump_rel, hk, hiDash_not, hkd, hv]

theorem attemptJump_vel_x_nowall
    (p : Player) (h : ¬ (p.on_wall ≠ 0 ∧ p.on_ground = false)) :
    (attemptJump p).vel_x = p.vel_x := by
  unfold attemptJump
  split_ifs <;> simp_all

theorem hiDash_vel_x (keys : Keys) (p : Player) :
    (hiDash keys p).vel_x = p.vel_x := by
  unfold hiDash startDash
  split_ifs <;> simp

/-- The jump-key block leaves vel_x alone unless it performs a wall
jump. -/
theorem hiJump_vel_x (keys : Keys) (p : Player)
    (h : ¬ (keys.jump = true ∧ p.jump_held = false ∧ p.on_wall ≠ 0 ∧
        p.on_ground = false)) :
    (hiJump keys p).vel_x = p.vel_x := by
  by_cases hk : keys.jump = true
  · by_cases hh : p.jump_held = true
    · rw [hiJump_held2 keys p hk hh]
    · have hh2 : p.jump_held = false := by
        revert hh; cases p.jump_held <;> simp
      have hnw : ¬ (p.on_wall ≠ 0 ∧ p.on_ground = false) := by
        intro hcon
        exact h ⟨hk, hh2, hcon.1, hcon.2⟩
      rw [hiJump_edge keys p hk hh2]
      have := attemptJump_vel_x_nowall
        { p with jump_buffer_timer := PLAYER_JUMP_BUFFER } (by simpa using hnw)
      simpa using this
  · have hk2 : keys.jump = false := by
      revert hk; cases keys.jump <;> simp
    rw [hiJump_rel keys p hk2]

theorem abs_clamp (x : ℚ) :
    |max (-PLAYER_MAX_SPEED) (min PLAYER_MAX_SPEED x)| ≤ PLAYER_MAX_SPEED := by
  rw [abs_le]
  constructor
  · exact le_max_left _ _
  · apply max_le
    · norm_num [PLAYER_MAX_SPEED]
    · exact min_le_left _ _

/-- Claim C3 (corrected): after handle_input the speed clamp |vel_x| ≤
PLAYER_MAX_SPEED holds whenever the call did not return early because a
dash is in progress and did not execute a wall jump (a wall jump sets
vel_x to ±PLAYER_WALL_JUMP_X = ±10 after the clamp).  On dashing ticks
handle_input returns its argument unchanged, so the dash speed of 15 set by
Player.update persists through handle_input (see C3_counterexample). -/
theorem C3_amended :
    (∀ (keys : Keys) (p : Player), p.dashing = false →
      ¬ (keys.jump = true ∧ p.jump_held = false ∧ p.on_wall ≠ 0 ∧
          p.on_ground = false) →
      |(handleInput keys p).vel_x| ≤ PLAYER_MAX_SPEED) ∧
    (∀ (keys : Keys) (p : Player), p.dashing = true →
      handleInput keys p = p) := by
  constructor
  · intro keys p hd hnw
    have e1 : (hiClamp (hiFriction keys (hiRight keys
        (hiLeft keys p)))).jump_held = p.jump_held := by
      simp [hiClamp, hiLeft_eq, hiRight_eq, hiFriction_eq]
    have e2 : (hiClamp (hiFriction keys (hiRight keys
        (hiLeft keys p)))).on_wall = p.on_wall := by
      simp [hiClamp, hiLeft_eq, hiRight_eq, hiFriction_eq]
    have e3 : (hiClamp (hiFriction keys (hiRight keys
        (hiLeft keys p)))).on_ground = p.on_ground := by
      simp [hiClamp, hiLeft_eq, hiRight_eq, hiFriction_eq]
    rw [handleInput_run keys p hd]
    rw [hiDash_vel_x]
    rw [hiJump_vel_x]
    · exact abs_clamp _
    · rw [e1, e2, e3]
      exact hnw
  · intro keys p hd
    exact handleInput_id keys p hd

/-- Claim C7 (confirmed): in the vertical pass a one-way platform clamps
the player only when vel_y is positive and the bottom edge before this
tick's vertical displacement (rect.bottom - vel_y, positions being exact
here) is at or above the platform top plus the 10-unit tolerance; a player
moving upward, or one that was already past that line at tick start,
passes through with position, velocity and ground state untouched. -/
theorem C7_oneway_gate (p : Player) (pl : Plat) (hact : pl.active = true)
    (hpt : pl.ptype = PType.oneway) (hk : pl.kind = PKind.onewayK) :
    (0 < p.vel_y → p.rect.bottom - p.vel_y ≤ pl.rect.y + 10 →
      p.rect.colliderect pl.rect = true →
      ((handleVerticalCollisions p [pl]).1.rect.bottom = pl.rect.y ∧
       (handleVerticalCollisions p [pl]).1.vel_y = 0 ∧
       (handleVerticalCollisions p [pl]).1.on_ground = true ∧
       (handleVerticalCollisions p [pl]).1.current_platform = some pl)) ∧
    (p.vel_y ≤ 0 →
      ((handleVerticalCollisions p [pl]).1.rect = p.rect ∧
       (handleVerticalCollisions p [pl]).1.vel_y = p.vel_y ∧
       (handleVerticalCollisions p [pl]).1.on_ground = false)) ∧
    (0 < p.vel_y → pl.rect.y + 10 < p.rect.bottom - p.vel_y →
      ((handleVerticalCollisions p [pl]).1.rect = p.rect ∧
       (handleVerticalCollisions p [pl]).1.vel_y = p.vel_y ∧
       (handleVerticalCollisions p [pl]).1.on_ground = false)) := by
  refine ⟨?_, ?_, ?_⟩
  · intro hv hb hcol
    simp only [handleVerticalCollisions, List.foldl, vCollideOne, hact, hpt, hk,
      hcol, if_true]
    split_ifs with h1 h2 <;>
      first
        | (refine ⟨by simp [Rect.bottom, hk]; try ring, by simp [hk],
            by simp [hk], by simp [hk]⟩)
        | (exfalso; simp only [Rect.bottom] at hb h1 ⊢; linarith)
        | (exfalso; simp only [not_lt] at h1; linarith)
        | simp_all
  · intro hv
    have hv2 : ¬ (0 < p.vel_y) := not_lt.mpr hv
    rcases Bool.eq_false_or_eq_true (p.rect.colliderect pl.rect) with h | h <;>
      simp [handleVerticalCollisions, vCollideOne, hact, hpt, hk, h, hv2]
  · intro hv hb
    rcases Bool.eq_false_or_eq_true (p.rect.colliderect pl.rect) with h | h <;>
      simp [handleVerticalCollisions, vCollideOne, hact, hpt, hk, h, hv] <;>
      try (split_ifs <;> first | (exfalso; linarith) | simp_all [hk])

/-- Operations available on a platform between level resets: per-tick
updates and landing triggers. -/
inductive PlatOp
  | updateOp
  | triggerOp
deriving DecidableEq, Repr

def applyOp : PlatOp → Plat → Plat
  | PlatOp.updateOp => platUpdate
  | PlatOp.triggerOp => platTrigger

def applyOps (ops : List PlatOp) (pl : Plat) : Plat :=
  ops.foldl (fun q op => applyOp op q) pl

theorem applyOp_active (op : PlatOp) (pl : Plat) (h : pl.active = false) :
    (applyOp op pl).active = false := by
  cases op with
  | triggerOp =>
    simp only [applyOp, platTrigger]
    split_ifs <;> simp [h]
  | updateOp =>
    simp only [applyOp, platUpdate]
    cases hk : pl.kind <;>
      simp [movingUpdate, fallingUpdate, bouncyUpdate, h] <;>
      split_ifs <;> simp [h]

/-- Claim C8 (code_bug): once inactive, no sequence of update or trigger
calls reactivates a platform; a falling platform that moves past
SCREEN_HEIGHT + 100 is deactivated by its update; Level.reset is the only
reactivation.  But the reset does NOT restore the original position: the
source assigns rect.y from original_x (its comment says "Reset to original
position"), so a FallingPlatform built at (2000, 400) comes out of reset
with rect.y = 2000 instead of 400. -/
theorem C8_falling_permanence :
    (∀ (ops : List PlatOp) (pl : Plat), pl.active = false →
      (applyOps ops pl).active = false) ∧
    (∀ pl : Plat, pl.kind = PKind.falling → pl.falling = true →
      pl.shake_timer = 0 →
      SCREEN_HEIGHT + 100 < pl.rect.y + (pl.fall_speed + GRAVITY) →
      (platUpdate pl).active = false) ∧
    (∀ pl : Plat, (levelResetPlat pl).active = true) ∧
    ((levelResetPlat (fallingPlatformInit 2000 400 80 20)).rect.y = 2000 ∧
     (fallingPlatformInit 2000 400 80 20).rect.y = 400 ∧
     ((2000 : ℚ) ≠ 400)) := by
  refine ⟨?_, ?_, ?_, ?_⟩
  · intro ops
    induction ops with
    | nil => intro pl h; exact h
    | cons op rest ih =>
      intro pl h
      exact ih (applyOp op pl) (applyOp_active op pl h)
  · intro pl hk hf hs hy
    have hs2 : ¬ (pl.shake_timer > 0) := by omega
    simp [platUpdate, hk, fallingUpdate, hs2, hf, hy]
  · intro pl
    simp only [levelResetPlat]
    split_ifs <;> simp
  · refine ⟨?_, ?_, by norm_num⟩ <;>
      norm_num [levelResetPlat, fallingPlatformInit]

/-- Claim C1 (corrected): within Game.update_playing the player input and
update (whose movement resolves horizontally before vertically) run first,
against the platform positions as they stood at tick entry, and the
platform position updates of Level.update run afterwards.  Collisions are
therefore resolved against the platform positions computed in the previous
tick, not the current one (see C1_counterexample for an observable
difference). -/
theorem C1_amended :
    (∀ (keys : Keys) (g : Game),
      (updatePlaying keys g).player =
        (playerUpdate (handleInput keys g.player) g.platforms g.hazards
          g.collectibles).1 ∧
      (updatePlaying keys g).platforms =
        ((playerUpdate (handleInput keys g.player) g.platforms g.hazards
          g.collectibles).2.1).map platUpdate) ∧
    (∀ (p : Player) (plats : List Plat),
      movePhase p plats =
        (let p1 := handleHorizontalCollisions
          { p with rect := { p.rect with x := p.rect.x + p.vel_x } } plats
         handleVerticalCollisions
          { p1 with rect := { p1.rect with y := p1.rect.y + p1.vel_y } }
          plats)) :=
  ⟨fun _ _ => ⟨rfl, rfl⟩, fun _ _ => rfl⟩


/-! ### Constructor disequalities

This Lean version's simp set does not reduce `ctor1 = ctor2` for distinct
enum constructors on its own; these facts let the concrete evaluations
below pass through the platform-type dispatch. -/

theorem ptype_facts :
    PType.normal ≠ PType.oneway ∧ PType.normal ≠ PType.bouncy ∧
    PType.normal ≠ PType.fall ∧ PType.fall ≠ PType.oneway ∧
    PType.fall ≠ PType.bouncy ∧ PType.ice ≠ PType.oneway ∧
    PType.ice ≠ PType.bouncy ∧ PType.ice ≠ PType.fall ∧
    PType.oneway ≠ PType.bouncy ∧ PType.oneway ≠ PType.fall := by
  refine ⟨?_, ?_, ?_, ?_, ?_, ?_, ?_, ?_, ?_, ?_⟩ <;> decide

theorem pkind_facts :
    PKind.base ≠ PKind.bouncyK ∧ PKind.base ≠ PKind.falling ∧
    PKind.base ≠ PKind.moving ∧ PKind.falling ≠ PKind.bouncyK ∧
    PKind.falling ≠ PKind.moving ∧ PKind.onewayK ≠ PKind.bouncyK ∧
    PKind.onewayK ≠ PKind.falling ∧ PKind.onewayK ≠ PKind.moving := by
  refine ⟨?_, ?_, ?_, ?_, ?_, ?_, ?_, ?_⟩ <;> decide

/-! ### Concrete games for the counterexamples -/

/-- A square-pattern moving platform at the start of its cycle: its update
moves it from x = 300 to x = 302. -/
def C1plat : Plat :=
  { rect := ⟨300, 440, 200, 20⟩, ptype := PType.normal, friction := 1,
    active := true, kind := PKind.moving, start_x := 300, start_y := 440,
    speed := 2, distance := 200, time := 0 }

/-- A player running right at max speed into the moving platform's left
face. -/
def C1player : Player :=
  { rect := ⟨270, 450, 32, 48⟩, vel_x := 6 }

def C1game : Game :=
  { player := C1player, platforms := [C1plat], hazards := [],
    collectibles := [] }

set_option maxHeartbeats 2000000 in
/-- Claim C1 counterexample: in the code's tick the player's horizontal
pass clamps against the moving platform's PREVIOUS position (left face
x = 300, player stops at 268); had the platform update run first as the
spec prescribes, the clamp would land at the fresh face x = 302 (player
at 270).  The platform itself ends the tick at x = 302 either way, so the
code's tick resolves against a stale position. -/
theorem C1_counterexample :
    (updatePlaying kNone C1game).player.rect.x = 268 ∧
    (updatePlayingPlatformsFirst kNone C1game).player.rect.x = 270 ∧
    ((updatePlaying kNone C1game).platforms.map fun pl => pl.rect.x) =
      [302] ∧
    ((updatePlayingPlatformsFirst kNone C1game).platforms.map
      fun pl => pl.rect.x) = [302] ∧
    ((268 : ℚ) ≠ 270) := by
  have e1 : updatePlaying kNone C1game =
      { player := { rect := ⟨268, 2254/5, 32, 48⟩, vel_y := 4/5,
                    on_wall := 1 },
        platforms := [{ C1plat with time := 1,
                                    rect := ⟨302, 440, 200, 20⟩ }],
        hazards := [], collectibles := [] } := by
    norm_num [C1game, C1player, C1plat, updatePlaying,
      updatePlayingPlatformsFirst, playerUpdate, handleInput, hiLeft, hiRight,
      hiFriction, hiClamp, hiJump, hiDash, startDash, attemptJump,
      updateTimers, resetFrameFlags, tickCoyoteTimer, tickJumpBufferTimer,
      tickDashCooldownTimer, tickWallJumpTimer, tickInvincibilityTimer,
      tickPowerupTimer, dashPhase, dashStep, dashEnd, gravityPhase,
      applyGravity, wallSlide, terminalCap, movePhase, hCollideOne,
      handleHorizontalCollisions, vCollideOne, handleVerticalCollisions,
      movingGetVelocity, squarePos, landingPhase, landDetect, jumpStretch,
      squashRecover, coyoteAndBufferPhase, coyoteArm, bufferedJump,
      djaRefresh, fallDeathPhase, takeDamage, checkHazards, checkCollectibles,
      collectOne, platUpdate, movingUpdate, fallingUpdate, bouncyUpdate,
      platTrigger, Rect.colliderect, Rect.bottom, Rect.right, kNone, kJump,
      ptype_facts, pkind_facts, abs_of_nonneg, abs_of_nonpos, abs_zero,
      abs_neg,
      GRAVITY, TERMINAL_VELOCITY, FRICTION, SCREEN_HEIGHT,
      PLAYER_ACCELERATION, PLAYER_MAX_SPEED, PLAYER_JUMP_STRENGTH,
      PLAYER_DOUBLE_JUMP_STRENGTH, PLAYER_DASH_SPEED, PLAYER_DASH_DURATION,
      PLAYER_DASH_COOLDOWN, PLAYER_WALL_SLIDE_SPEED, PLAYER_WALL_JUMP_X,
      PLAYER_WALL_JUMP_Y, PLAYER_COYOTE_TIME, PLAYER_JUMP_BUFFER,
      PLAYER_MAX_HEALTH, PLAYER_INVINCIBILITY_FRAMES, SQUASH_LAND,
      STRETCH_JUMP, SQUASH_RECOVERY_SPEED, POWERUP_DURATION]
  have e2 : updatePlayingPlatformsFirst kNone C1game =
      { player := { rect := ⟨270, 2254/5, 32, 48⟩, vel_y := 4/5,
                    on_wall := 1 },
        platforms := [{ C1plat with time := 1,
                                    rect := ⟨302, 440, 200, 20⟩ }],
        hazards := [], collectibles := [] } := by
    norm_num [C1game, C1player, C1plat, updatePlaying,
      updatePlayingPlatformsFirst, playerUpdate, handleInput, hiLeft, hiRight,
      hiFriction, hiClamp, hiJump, hiDash, startDash, attemptJump,
      updateTimers, resetFrameFlags, tickCoyoteTimer, tickJumpBufferTimer,
      tickDashCooldownTimer, tickWallJumpTimer, tickInvincibilityTimer,
      tickPowerupTimer, dashPhase, dashStep, dashEnd, gravityPhase,
      applyGravity, wallSlide, terminalCap, movePhase, hCollideOne,
      handleHorizontalCollisions, vCollideOne, handleVerticalCollisions,
      movingGetVelocity, squarePos, landingPhase, landDetect, jumpStretch,
      squashRecover, coyoteAndBufferPhase, coyoteArm, bufferedJump,
      djaRefresh, fallDeathPhase, takeDamage, checkHazards, checkCollectibles,
      collectOne, platUpdate, movingUpdate, fallingUpdate, bouncyUpdate,
      platTrigger, Rect.colliderect, Rect.bottom, Rect.right, kNone, kJump,
      ptype_facts, pkind_facts, abs_of_nonneg, abs_of_nonpos, abs_zero,
      abs_neg,
      GRAVITY, TERMINAL_VELOCITY, FRICTION, SCREEN_HEIGHT,
      PLAYER_ACCELERATION, PLAYER_MAX_SPEED, PLAYER_JUMP_STRENGTH,
      PLAYER_DOUBLE_JUMP_STRENGTH, PLAYER_DASH_SPEED, PLAYER_DASH_DURATION,
      PLAYER_DASH_COOLDOWN, PLAYER_WALL_SLIDE_SPEED, PLAYER_WALL_JUMP_X,
      PLAYER_WALL_JUMP_Y, PLAYER_COYOTE_TIME, PLAYER_JUMP_BUFFER,
      PLAYER_MAX_HEALTH, PLAYER_INVINCIBILITY_FRAMES, SQUASH_LAND,
      STRETCH_JUMP, SQUASH_RECOVERY_SPEED, POWERUP_DURATION]
  rw [e1, e2]
  norm_num [C1plat]

/-- An ascending player with the jump key already held. -/
def C2p : Player := { rect := ⟨0, 0, 32, 48⟩, vel_y := -16, jump_held := true }

set_option maxHeartbeats 1000000 in
/-- Claim C2 counterexample: with the key released, handle_input halves the
upward velocity on EVERY ascending tick, not once per release edge — a
second call (key still up, still ascending) halves again: -16 becomes -8
becomes -4. -/
theorem C2_counterexample :
    (handleInput kNone C2p).vel_y = -8 ∧
    (handleInput kNone C2p).jump_held = false ∧
    (handleInput kNone (handleInput kNone C2p)).vel_y = -4 ∧
    ((-4 : ℚ) ≠ -8) := by
  norm_num [handleInput, hiLeft, hiRight, hiFriction, hiClamp, hiJump,
    hiDash, kNone, C2p, FRICTION]

/-- A player mid-dash (dash_timer 5, dashing right). -/
def C3p : Player :=
  { rect := ⟨0, 0, 32, 48⟩, dashing := true, dash_timer := 5,
    dash_direction := 1 }

set_option maxHeartbeats 1000000 in
/-- Claim C3 counterexample: on a mid-dash tick Player.update sets
vel_x to PLAYER_DASH_SPEED = 15 and handle_input returns its argument
unchanged (the dash early return), so after handle_input |vel_x| = 15 > 6:
the clamp postcondition fails on dashing ticks. -/
theorem C3_counterexample :
    (playerUpdate C3p [] [] []).1.vel_x = PLAYER_DASH_SPEED ∧
    (playerUpdate C3p [] [] []).1.dashing = true ∧
    handleInput kNone (playerUpdate C3p [] [] []).1 =
      (playerUpdate C3p [] [] []).1 ∧
    ¬ (|(PLAYER_DASH_SPEED : ℚ)| ≤ PLAYER_MAX_SPEED) := by
  have E : (playerUpdate C3p [] [] []).1 =
      { rect := ⟨15, 0, 32, 48⟩, vel_x := 15, dashing := true,
        dash_timer := 4, dash_direction := 1 } := by
    norm_num [C3p, updatePlaying,
      updatePlayingPlatformsFirst, playerUpdate, handleInput, hiLeft, hiRight,
      hiFriction, hiClamp, hiJump, hiDash, startDash, attemptJump,
      updateTimers, resetFrameFlags, tickCoyoteTimer, tickJumpBufferTimer,
      tickDashCooldownTimer, tickWallJumpTimer, tickInvincibilityTimer,
      tickPowerupTimer, dashPhase, dashStep, dashEnd, gravityPhase,
      applyGravity, wallSlide, terminalCap, movePhase, hCollideOne,
      handleHorizontalCollisions, vCollideOne, handleVerticalCollisions,
      movingGetVelocity, squarePos, landingPhase, landDetect, jumpStretch,
      squashRecover, coyoteAndBufferPhase, coyoteArm, bufferedJump,
      djaRefresh, fallDeathPhase, takeDamage, checkHazards, checkCollectibles,
      collectOne, platUpdate, movingUpdate, fallingUpdate, bouncyUpdate,
      platTrigger, Rect.colliderect, Rect.bottom, Rect.right, kNone, kJump,
      ptype_facts, pkind_facts, abs_of_nonneg, abs_of_nonpos, abs_zero,
      abs_neg,
      GRAVITY, TERMINAL_VELOCITY, FRICTION, SCREEN_HEIGHT,
      PLAYER_ACCELERATION, PLAYER_MAX_SPEED, PLAYER_JUMP_STRENGTH,
      PLAYER_DOUBLE_JUMP_STRENGTH, PLAYER_DASH_SPEED, PLAYER_DASH_DURATION,
      PLAYER_DASH_COOLDOWN, PLAYER_WALL_SLIDE_SPEED, PLAYER_WALL_JUMP_X,
      PLAYER_WALL_JUMP_Y, PLAYER_COYOTE_TIME, PLAYER_JUMP_BUFFER,
      PLAYER_MAX_HEALTH, PLAYER_INVINCIBILITY_FRAMES, SQUASH_LAND,
      STRETCH_JUMP, SQUASH_RECOVERY_SPEED, POWERUP_DURATION]
  rw [E]
  refine ⟨by norm_num [PLAYER_DASH_SPEED], rfl,
    handleInput_id kNone _ rfl, ?_⟩
  norm_num [PLAYER_DASH_SPEED, PLAYER_MAX_SPEED]

/-- A player far below the screen but inside an invincibility window. -/
def C9p : Player :=
  { rect := ⟨0, 950, 32, 48⟩, invincible := true, invincibility_timer := 50,
    health := 3 }

set_option maxHeartbeats 1000000 in
/-- Claim C9 counterexample: the player ends the tick at y = 950.8, more
than 100 units below SCREEN_HEIGHT = 800, yet health stays 3: the
take_damage(999) fall-death call is a no-op while invincible, so falling
out of the world does NOT leave health at zero for every state. -/
theorem C9_counterexample :
    (playerTick0 C9p).rect.y > SCREEN_HEIGHT + 100 ∧
    (playerTick0 C9p).health = 3 ∧
    ((3 : ℤ) ≠ 0) := by
  have E : playerTick0 C9p =
      { rect := ⟨0, 4754/5, 32, 48⟩, vel_y := 4/5, invincible := true,
        invincibility_timer := 49 } := by
    norm_num [playerTick0, C9p, updatePlaying,
      updatePlayingPlatformsFirst, playerUpdate, handleInput, hiLeft, hiRight,
      hiFriction, hiClamp, hiJump, hiDash, startDash, attemptJump,
      updateTimers, resetFrameFlags, tickCoyoteTimer, tickJumpBufferTimer,
      tickDashCooldownTimer, tickWallJumpTimer, tickInvincibilityTimer,
      tickPowerupTimer, dashPhase, dashStep, dashEnd, gravityPhase,
      applyGravity, wallSlide, terminalCap, movePhase, hCollideOne,
      handleHorizontalCollisions, vCollideOne, handleVerticalCollisions,
      movingGetVelocity, squarePos, landingPhase, landDetect, jumpStretch,
      squashRecover, coyoteAndBufferPhase, coyoteArm, bufferedJump,
      djaRefresh, fallDeathPhase, takeDamage, checkHazards, checkCollectibles,
      collectOne, platUpdate, movingUpdate, fallingUpdate, bouncyUpdate,
      platTrigger, Rect.colliderect, Rect.bottom, Rect.right, kNone, kJump,
      ptype_facts, pkind_facts, abs_of_nonneg, abs_of_nonpos, abs_zero,
      abs_neg,
      GRAVITY, TERMINAL_VELOCITY, FRICTION, SCREEN_HEIGHT,
      PLAYER_ACCELERATION, PLAYER_MAX_SPEED, PLAYER_JUMP_STRENGTH,
      PLAYER_DOUBLE_JUMP_STRENGTH, PLAYER_DASH_SPEED, PLAYER_DASH_DURATION,
      PLAYER_DASH_COOLDOWN, PLAYER_WALL_SLIDE_SPEED, PLAYER_WALL_JUMP_X,
      PLAYER_WALL_JUMP_Y, PLAYER_COYOTE_TIME, PLAYER_JUMP_BUFFER,
      PLAYER_MAX_HEALTH, PLAYER_INVINCIBILITY_FRAMES, SQUASH_LAND,
      STRETCH_JUMP, SQUASH_RECOVERY_SPEED, POWERUP_DURATION]
  rw [E]
  norm_num [SCREEN_HEIGHT, PLAYER_MAX_HEALTH]

/-! ### Claim C4: jump buffering -/

/-- The floor the buffered-jump trajectories land on. -/
def C4floor : Plat :=
  { rect := ⟨0, 500, 400, 50⟩, ptype := PType.normal, friction := 1,
    active := true, kind := PKind.base }

/-- A player dropped so that it lands exactly k + 1 ticks after the first
tick (gravity 0.8 per tick from rest: it crosses the floor top during
tick k + 1). -/
def C4player (k : ℕ) : Player :=
  { rect := ⟨100, 4521/10 - (2/5) * ((k:ℚ)+1) * ((k:ℚ)+2), 32, 48⟩,
    double_jump_available := false }

def C4game (k : ℕ) : Game :=
  { player := C4player k, platforms := [C4floor], hazards := [],
    collectibles := [] }

set_option maxHeartbeats 2000000 in
/-- Claim C4 counterexample: a jump key edge on tick 1 (airborne,
ineligible: no wall, no coyote, no double jump) arms the 8-tick buffer,
but the same tick's timer pass already decrements it to 7; landing 7 ticks
after the edge — within the claimed JUMP_BUFFER = 8 window — finds the
buffer at 0 and executes NO jump: the player simply lands (vel_y 0,
grounded, jumped_this_frame false). -/
theorem C4_counterexample :
    (C4game 7).player.on_ground = false ∧
    (updatePlaying kJump (C4game 7)).player.jump_buffer_timer = 7 ∧
    (updatePlaying kJump (C4game 7)).player.jumped_this_frame = false ∧
    (gameTicks kNone 6 (updatePlaying kJump (C4game 7))).player.on_ground
      = false ∧
    (gameTicks kNone 7 (updatePlaying kJump (C4game 7))).player.on_ground
      = true ∧
    (gameTicks kNone 7 (updatePlaying kJump
      (C4game 7))).player.jumped_this_frame = false ∧
    (gameTicks kNone 7 (updatePlaying kJump (C4game 7))).player.vel_y = 0 := by
  have ek7t1 : updatePlaying kJump
      (C4game 7) =
      { player := { rect := ⟨100, 4241/10, 32, 48⟩,
                    vel_y := 4/5,
                    double_jump_available := false,
                    jump_held := true,
                    jump_buffer_timer := 7 },
        platforms := [C4floor], hazards := [], collectibles := [] } := by
    norm_num [C4game, C4player, C4floor, updatePlaying,
      updatePlayingPlatformsFirst, playerUpdate, handleInput, hiLeft, hiRight,
      hiFriction, hiClamp, hiJump, hiDash, startDash, attemptJump,
      updateTimers, resetFrameFlags, tickCoyoteTimer, tickJumpBufferTimer,
      tickDashCooldownTimer, tickWallJumpTimer, tickInvincibilityTimer,
      tickPowerupTimer, dashPhase, dashStep, dashEnd, gravityPhase,
      applyGravity, wallSlide, terminalCap, movePhase, hCollideOne,
      handleHorizontalCollisions, vCollideOne, handleVerticalCollisions,
      movingGetVelocity, squarePos, landingPhase, landDetect, jumpStretch,
      squashRecover, coyoteAndBufferPhase, coyoteArm, bufferedJump,
      djaRefresh, fallDeathPhase, takeDamage, checkHazards, checkCollectibles,
      collectOne, platUpdate, movingUpdate, fallingUpdate, bouncyUpdate,
      platTrigger, Rect.colliderect, Rect.bottom, Rect.right, kNone, kJump,
      ptype_facts, pkind_facts, abs_of_nonneg, abs_of_nonpos, abs_zero,
      abs_neg,
      GRAVITY, TERMINAL_VELOCITY, FRICTION, SCREEN_HEIGHT,
      PLAYER_ACCELERATION, PLAYER_MAX_SPEED, PLAYER_JUMP_STRENGTH,
      PLAYER_DOUBLE_JUMP_STRENGTH, PLAYER_DASH_SPEED, PLAYER_DASH_DURATION,
      PLAYER_DASH_COOLDOWN, PLAYER_WALL_SLIDE_SPEED, PLAYER_WALL_JUMP_X,
      PLAYER_WALL_JUMP_Y, PLAYER_COYOTE_TIME, PLAYER_JUMP_BUFFER,
      PLAYER_MAX_HEALTH, PLAYER_INVINCIBILITY_FRAMES, SQUASH_LAND,
      STRETCH_JUMP, SQUASH_RECOVERY_SPEED, POWERUP_DURATION]
  have ek7t2 : updatePlaying kNone
      { player := { rect := ⟨100, 4241/10, 32, 48⟩,
                    vel_y := 4/5,
                    double_jump_available := false,
                    jump_held := true,
                    jump_buffer_timer := 7 },
        platforms := [C4floor], hazards := [], collectibles := [] } =
      { player := { rect := ⟨100, 4257/10, 32, 48⟩,
                    vel_y := 8/5,
                    double_jump_available := false,
                    jump_buffer_timer := 6 },
        platforms := [C4floor], hazards := [], collectibles := [] } := by
    norm_num [C4game, C4player, C4floor, updatePlaying,
      updatePlayingPlatformsFirst, playerUpdate, handleInput, hiLeft, hiRight,
      hiFriction, hiClamp, hiJump, hiDash, startDash, attemptJump,
      updateTimers, resetFrameFlags, tickCoyoteTimer, tickJumpBufferTimer,
      tickDashCooldownTimer, tickWallJumpTimer, tickInvincibilityTimer,
      tickPowerupTimer, dashPhase, dashStep, dashEnd, gravityPhase,
      applyGravity, wallSlide, terminalCap, movePhase, hCollideOne,
      handleHorizontalCollisions, vCollideOne, handleVerticalCollisions,
      movingGetVelocity, squarePos, landingPhase, landDetect, jumpStretch,
      squashRecover, coyoteAndBufferPhase, coyoteArm, bufferedJump,
      djaRefresh, fallDeathPhase, takeDamage, checkHazards, checkCollectibles,
      collectOne, platUpdate, movingUpdate, fallingUpdate, bouncyUpdate,
      platTrigger, Rect.colliderect, Rect.bottom, Rect.right, kNone, kJump,
      ptype_facts, pkind_facts, abs_of_nonneg, abs_of_nonpos, abs_zero,
      abs_neg,
      GRAVITY, TERMINAL_VELOCITY, FRICTION, SCREEN_HEIGHT,
      PLAYER_ACCELERATION, PLAYER_MAX_SPEED, PLAYER_JUMP_STRENGTH,
      PLAYER_DOUBLE_JUMP_STRENGTH, PLAYER_DASH_SPEED, PLAYER_DASH_DURATION,
      PLAYER_DASH_COOLDOWN, PLAYER_WALL_SLIDE_SPEED, PLAYER_WALL_JUMP_X,
      PLAYER_WALL_JUMP_Y, PLAYER_COYOTE_TIME, PLAYER_JUMP_BUFFER,
      PLAYER_MAX_HEALTH, PLAYER_INVINCIBILITY_FRAMES, SQUASH_LAND,
      STRETCH_JUMP, SQUASH_RECOVERY_SPEED, POWERUP_DURATION]
  have ek7t3 : updatePlaying kNone
      { player := { rect := ⟨100, 4257/10, 32, 48⟩,
                    vel_y := 8/5,
                    double_jump_available := false,
                    jump_buffer_timer := 6 },
        platforms := [C4floor], hazards := [], collectibles := [] } =
      { player := { rect := ⟨100, 4281/10, 32, 48⟩,
                    vel_y := 12/5,
                    double_jump_available := false,
                    jump_buffer_timer := 5 },
        platforms := [C4floor], hazards := [], collectibles := [] } := by
    norm_num [C4game, C4player, C4floor, updatePlaying,
      updatePlayingPlatformsFirst, playerUpdate, handleInput, hiLeft, hiRight,
      hiFriction, hiClamp, hiJump, hiDash, startDash, attemptJump,
      updateTimers, resetFrameFlags, tickCoyoteTimer, tickJumpBufferTimer,
      tickDashCooldownTimer, tickWallJumpTimer, tickInvincibilityTimer,
      tickPowerupTimer, dashPhase, dashStep, dashEnd, gravityPhase,
      applyGravity, wallSlide, terminalCap, movePhase, hCollideOne,
      handleHorizontalCollisions, vCollideOne, handleVerticalCollisions,
      movingGetVelocity, squarePos, landingPhase, landDetect, jumpStretch,
      squashRecover, coyoteAndBufferPhase, coyoteArm, bufferedJump,
      djaRefresh, fallDeathPhase, takeDamage, checkHazards, checkCollectibles,
      collectOne, platUpdate, movingUpdate, fallingUpdate, bouncyUpdate,
      platTrigger, Rect.colliderect, Rect.bottom, Rect.right, kNone, kJump,
      ptype_facts, pkind_facts, abs_of_nonneg, abs_of_nonpos, abs_zero,
      abs_neg,
      GRAVITY, TERMINAL_VELOCITY, FRICTION, SCREEN_HEIGHT,
      PLAYER_ACCELERATION, PLAYER_MAX_SPEED, PLAYER_JUMP_STRENGTH,
      PLAYER_DOUBLE_JUMP_STRENGTH, PLAYER_DASH_SPEED, PLAYER_DASH_DURATION,
      PLAYER_DASH_COOLDOWN, PLAYER_WALL_SLIDE_SPEED, PLAYER_WALL_JUMP_X,
      PLAYER_WALL_JUMP_Y, PLAYER_COYOTE_TIME, PLAYER_JUMP_BUFFER,
      PLAYER_MAX_HEALTH, PLAYER_INVINCIBILITY_FRAMES, SQUASH_LAND,
      STRETCH_JUMP, SQUASH_RECOVERY_SPEED, POWERUP_DURATION]
  have ek7t4 : updatePlaying kNone
      { player := { rect := ⟨100, 4281/10, 32, 48⟩,
                    vel_y := 12/5,
                    double_jump_available := false,
                    jump_buffer_timer := 5 },
        platforms := [C4floor], hazards := [], collectibles := [] } =
      { player := { rect := ⟨100, 4313/10, 32, 48⟩,
                    vel_y := 16/5,
                    double_jump_available := false,
                    jump_buffer_timer := 4 },
        platforms := [C4floor], hazards := [], collectibles := [] } := by
    norm_num [C4game, C4player, C4floor, updatePlaying,
      updatePlayingPlatformsFirst, playerUpdate, handleInput, hiLeft, hiRight,
      hiFriction, hiClamp, hiJump, hiDash, startDash, attemptJump,
      updateTimers, resetFrameFlags, tickCoyoteTimer, tickJumpBufferTimer,
      tickDashCooldownTimer, tickWallJumpTimer, tickInvincibilityTimer,
      tickPowerupTimer, dashPhase, dashStep, dashEnd, gravityPhase,
      applyGravity, wallSlide, terminalCap, movePhase, hCollideOne,
      handleHorizontalCollisions, vCollideOne, handleVerticalCollisions,
      movingGetVelocity, squarePos, landingPhase, landDetect, jumpStretch,
      squashRecover, coyoteAndBufferPhase, coyoteArm, bufferedJump,
      djaRefresh, fallDeathPhase, takeDamage, checkHazards, checkCollectibles,
      collectOne, platUpdate, movingUpdate, fallingUpdate, bouncyUpdate,
      platTrigger, Rect.colliderect, Rect.bottom, Rect.right, kNone, kJump,
      ptype_facts, pkind_facts, abs_of_nonneg, abs_of_nonpos, abs_zero,
      abs_neg,
      GRAVITY, TERMINAL_VELOCITY, FRICTION, SCREEN_HEIGHT,
      PLAYER_ACCELERATION, PLAYER_MAX_SPEED, PLAYER_JUMP_STRENGTH,
      PLAYER_DOUBLE_JUMP_STRENGTH, PLAYER_DASH_SPEED, PLAYER_DASH_DURATION,
      PLAYER_DASH_COOLDOWN, PLAYER_WALL_SLIDE_SPEED, PLAYER_WALL_JUMP_X,
      PLAYER_WALL_JUMP_Y, PLAYER_COYOTE_TIME, PLAYER_JUMP_BUFFER,
      PLAYER_MAX_HEALTH, PLAYER_INVINCIBILITY_FRAMES, SQUASH_LAND,
      STRETCH_JUMP, SQUASH_RECOVERY_SPEED, POWERUP_DURATION]
  have ek7t5 : updatePlaying kNone
      { player := { rect := ⟨100, 4313/10, 32, 48⟩,
                    vel_y := 16/5,
                    double_jump_available := false,
                    jump_buffer_timer := 4 },
        platforms := [C4floor], hazards := [], collectibles := [] } =
      { player := { rect := ⟨100, 4353/10, 32, 48⟩,
                    vel_y := 4,
                    double_jump_available := false,
                    jump_buffer_timer := 3 },
        platforms := [C4floor], hazards := [], collectibles := [] } := by
    norm_num [C4game, C4player, C4floor, updatePlaying,
      updatePlayingPlatformsFirst, playerUpdate, handleInput, hiLeft, hiRight,
      hiFriction, hiClamp, hiJump, hiDash, startDash, attemptJump,
      updateTimers, resetFrameFlags, tickCoyoteTimer, tickJumpBufferTimer,
      tickDashCooldownTimer, tickWallJumpTimer, tickInvincibilityTimer,
      tickPowerupTimer, dashPhase, dashStep, dashEnd, gravityPhase,
      applyGravity, wallSlide, terminalCap, movePhase, hCollideOne,
      handleHorizontalCollisions, vCollideOne, handleVerticalCollisions,
      movingGetVelocity, squarePos, landingPhase, landDetect, jumpStretch,
      squashRecover, coyoteAndBufferPhase, coyoteArm, bufferedJump,
      djaRefresh, fallDeathPhase, takeDamage, checkHazards, checkCollectibles,
      collectOne, platUpdate, movingUpdate, fallingUpdate, bouncyUpdate,
      platTrigger, Rect.colliderect, Rect.bottom, Rect.right, kNone, kJump,
      ptype_facts, pkind_facts, abs_of_nonneg, abs_of_nonpos, abs_zero,
      abs_neg,
      GRAVITY, TERMINAL_VELOCITY, FRICTION, SCREEN_HEIGHT,
      PLAYER_ACCELERATION, PLAYER_MAX_SPEED, PLAYER_JUMP_STRENGTH,
      PLAYER_DOUBLE_JUMP_STRENGTH, PLAYER_DASH_SPEED, PLAYER_DASH_DURATION,
      PLAYER_DASH_COOLDOWN, PLAYER_WALL_SLIDE_SPEED, PLAYER_WALL_JUMP_X,
      PLAYER_WALL_JUMP_Y, PLAYER_COYOTE_TIME, PLAYER_JUMP_BUFFER,
      PLAYER_MAX_HEALTH, PLAYER_INVINCIBILITY_FRAMES, SQUASH_LAND,
      STRETCH_JUMP, SQUASH_RECOVERY_SPEED, POWERUP_DURATION]
  have ek7t6 : updatePlaying kNone
      { player := { rect := ⟨100, 4353/10, 32, 48⟩,
                    vel_y := 4,
                    double_jump_available := false,
                    jump_buffer_timer := 3 },
        platforms := [C4floor], hazards := [], collectibles := [] } =
      { player := { rect := ⟨100, 4401/10, 32, 48⟩,
                    vel_y := 24/5,
                    double_jump_available := false,
                    jump_buffer_timer := 2 },
        platforms := [C4floor], hazards := [], collectibles := [] } := by
    norm_num [C4game, C4player, C4floor, updatePlaying,
      updatePlayingPlatformsFirst, playerUpdate, handleInput, hiLeft, hiRight,
      hiFriction, hiClamp, hiJump, hiDash, startDash, attemptJump,
      updateTimers, resetFrameFlags, tickCoyoteTimer, tickJumpBufferTimer,
      tickDashCooldownTimer, tickWallJumpTimer, tickInvincibilityTimer,
      tickPowerupTimer, dashPhase, dashStep, dashEnd, gravityPhase,
      applyGravity, wallSlide, terminalCap, movePhase, hCollideOne,
      handleHorizontalCollisions, vCollideOne, handleVerticalCollisions,
      movingGetVelocity, squarePos, landingPhase, landDetect, jumpStretch,
      squashRecover, coyoteAndBufferPhase, coyoteArm, bufferedJump,
      djaRefresh, fallDeathPhase, takeDamage, checkHazards, checkCollectibles,
      collectOne, platUpdate, movingUpdate, fallingUpdate, bouncyUpdate,
      platTrigger, Rect.colliderect, Rect.bottom, Rect.right, kNone, kJump,
      ptype_facts, pkind_facts, abs_of_nonneg, abs_of_nonpos, abs_zero,
      abs_neg,
      GRAVITY, TERMINAL_VELOCITY, FRICTION, SCREEN_HEIGHT,
      PLAYER_ACCELERATION, PLAYER_MAX_SPEED, PLAYER_JUMP_STRENGTH,
      PLAYER_DOUBLE_JUMP_STRENGTH, PLAYER_DASH_SPEED, PLAYER_DASH_DURATION,
      PLAYER_DASH_COOLDOWN, PLAYER_WALL_SLIDE_SPEED, PLAYER_WALL_JUMP_X,
      PLAYER_WALL_JUMP_Y, PLAYER_COYOTE_TIME, PLAYER_JUMP_BUFFER,
      PLAYER_MAX_HEALTH, PLAYER_INVINCIBILITY_FRAMES, SQUASH_LAND,
      STRETCH_JUMP, SQUASH_RECOVERY_SPEED, POWERUP_DURATION]
  have ek7t7 : updatePlaying kNone
      { player := { rect := ⟨100, 4401/10, 32, 48⟩,
                    vel_y := 24/5,
                    double_jump_available := false,
                    jump_buffer_timer := 2 },
        platforms := [C4floor], hazards := [], collectibles := [] } =
      { player := { rect := ⟨100, 4457/10, 32, 48⟩,
                    vel_y := 28/5,
                    double_jump_available := false,
                    jump_buffer_timer := 1 },
        platforms := [C4floor], hazards := [], collectibles := [] } := by
    norm_num [C4game, C4player, C4floor, updatePlaying,
      updatePlayingPlatformsFirst, playerUpdate, handleInput, hiLeft, hiRight,
      hiFriction, hiClamp, hiJump, hiDash, startDash, attemptJump,
      updateTimers, resetFrameFlags, tickCoyoteTimer, tickJumpBufferTimer,
      tickDashCooldownTimer, tickWallJumpTimer, tickInvincibilityTimer,
      tickPowerupTimer, dashPhase, dashStep, dashEnd, gravityPhase,
      applyGravity, wallSlide, terminalCap, movePhase, hCollideOne,
      handleHorizontalCollisions, vCollideOne, handleVerticalCollisions,
      movingGetVelocity, squarePos, landingPhase, landDetect, jumpStretch,
      squashRecover, coyoteAndBufferPhase, coyoteArm, bufferedJump,
      djaRefresh, fallDeathPhase, takeDamage, checkHazards, checkCollectibles,
      collectOne, platUpdate, movingUpdate, fallingUpdate, bouncyUpdate,
      platTrigger, Rect.colliderect, Rect.bottom, Rect.right, kNone, kJump,
      ptype_facts, pkind_facts, abs_of_nonneg, abs_of_nonpos, abs_zero,
      abs_neg,
      GRAVITY, TERMINAL_VELOCITY, FRICTION, SCREEN_HEIGHT,
      PLAYER_ACCELERATION, PLAYER_MAX_SPEED, PLAYER_JUMP_STRENGTH,
      PLAYER_DOUBLE_JUMP_STRENGTH, PLAYER_DASH_SPEED, PLAYER_DASH_DURATION,
      PLAYER_DASH_COOLDOWN, PLAYER_WALL_SLIDE_SPEED, PLAYER_WALL_JUMP_X,
      PLAYER_WALL_JUMP_Y, PLAYER_COYOTE_TIME, PLAYER_JUMP_BUFFER,
      PLAYER_MAX_HEALTH, PLAYER_INVINCIBILITY_FRAMES, SQUASH_LAND,
      STRETCH_JUMP, SQUASH_RECOVERY_SPEED, POWERUP_DURATION]
  have ek7t8 : updatePlaying kNone
      { player := { rect := ⟨100, 4457/10, 32, 48⟩,
                    vel_y := 28/5,
                    double_jump_available := false,
                    jump_buffer_timer := 1 },
        platforms := [C4floor], hazards := [], collectibles := [] } =
      { player := { rect := ⟨100, 452, 32, 48⟩,
                    on_ground := true,
                    squash_stretch := 17/20,
                    landed_this_frame := true,
                    current_platform := some C4floor },
        platforms := [C4floor], hazards := [], collectibles := [] } := by
    norm_num [C4game, C4player, C4floor, updatePlaying,
      updatePlayingPlatformsFirst, playerUpdate, handleInput, hiLeft, hiRight,
      hiFriction, hiClamp, hiJump, hiDash, startDash, attemptJump,
      updateTimers, resetFrameFlags, tickCoyoteTimer, tickJumpBufferTimer,
      tickDashCooldownTimer, tickWallJumpTimer, tickInvincibilityTimer,
      tickPowerupTimer, dashPhase, dashStep, dashEnd, gravityPhase,
      applyGravity, wallSlide, terminalCap, movePhase, hCollideOne,
      handleHorizontalCollisions, vCollideOne, handleVerticalCollisions,
      movingGetVelocity, squarePos, landingPhase, landDetect, jumpStretch,
      squashRecover, coyoteAndBufferPhase, coyoteArm, bufferedJump,
      djaRefresh, fallDeathPhase, takeDamage, checkHazards, checkCollectibles,
      collectOne, platUpdate, movingUpdate, fallingUpdate, bouncyUpdate,
      platTrigger, Rect.colliderect, Rect.bottom, Rect.right, kNone, kJump,
      ptype_facts, pkind_facts, abs_of_nonneg, abs_of_nonpos, abs_zero,
      abs_neg,
      GRAVITY, TERMINAL_VELOCITY, FRICTION, SCREEN_HEIGHT,
      PLAYER_ACCELERATION, PLAYER_MAX_SPEED, PLAYER_JUMP_STRENGTH,
      PLAYER_DOUBLE_JUMP_STRENGTH, PLAYER_DASH_SPEED, PLAYER_DASH_DURATION,
      PLAYER_DASH_COOLDOWN, PLAYER_WALL_SLIDE_SPEED, PLAYER_WALL_JUMP_X,
      PLAYER_WALL_JUMP_Y, PLAYER_COYOTE_TIME, PLAYER_JUMP_BUFFER,
      PLAYER_MAX_HEALTH, PLAYER_INVINCIBILITY_FRAMES, SQUASH_LAND,
      STRETCH_JUMP, SQUASH_RECOVERY_SPEED, POWERUP_DURATION]
  have E7 : gameTicks kNone 7 (updatePlaying kJump (C4game 7)) =
      updatePlaying kNone (updatePlaying kNone (updatePlaying kNone (updatePlaying kNone (updatePlaying kNone (updatePlaying kNone (updatePlaying kNone (updatePlaying kJump (C4game 7)))))))) := rfl
  have E6 : gameTicks kNone 6 (updatePlaying kJump (C4game 7)) =
      updatePlaying kNone (updatePlaying kNone (updatePlaying kNone (updatePlaying kNone (updatePlaying kNone (updatePlaying kNone (updatePlaying kJump (C4game 7))))))) := rfl
  rw [E7, E6, ek7t1, ek7t2, ek7t3, ek7t4, ek7t5, ek7t6, ek7t7, ek7t8]
  norm_num [C4game, C4player]

set_option maxHeartbeats 2000000 in
/-- Claim C4 (corrected): the buffered-jump window is 6 ticks after the
edge tick, not 8.  The key edge while airborne and ineligible arms the
buffer to PLAYER_JUMP_BUFFER = 8 without jumping; Player.update decrements
the buffer every tick (including the edge tick itself, before any landing
can consume it); a landing tick whose post-decrement buffer is still
positive executes the ground jump and consumes the buffer.  Hence landings
1 to 6 ticks after the edge jump — the boundary trajectory landing 6 ticks
after the edge executes PLAYER_JUMP_STRENGTH on the landing tick — and a
landing 7 ticks after the edge does not (see C4_counterexample). -/
theorem C4_amended :
    (∀ (p : Player), p.dashing = false → p.on_ground = false →
      p.on_wall = 0 → p.coyote_timer = 0 → p.double_jump_available = false →
      p.jump_held = false →
      (handleInput kJump p).jump_buffer_timer = PLAYER_JUMP_BUFFER ∧
      (handleInput kJump p).vel_y = p.vel_y ∧
      (handleInput kJump p).jumped_this_frame = p.jumped_this_frame) ∧
    (∀ (p : Player), (updateTimers p).jump_buffer_timer =
      p.jump_buffer_timer - 1) ∧
    (∀ (p : Player), p.on_ground = true → 0 < p.jump_buffer_timer →
      p.on_wall = 0 →
      (coyoteAndBufferPhase false p).vel_y = PLAYER_JUMP_STRENGTH ∧
      (coyoteAndBufferPhase false p).jump_buffer_timer = 0 ∧
      (coyoteAndBufferPhase false p).jumped_this_frame = true) ∧
    ((C4game 6).player.on_ground = false ∧
     (updatePlaying kJump (C4game 6)).player.jumped_this_frame = false ∧
     (gameTicks kNone 5 (updatePlaying kJump (C4game 6))).player.on_ground
       = false ∧
     (gameTicks kNone 6 (updatePlaying kJump (C4game 6))).player.vel_y
       = PLAYER_JUMP_STRENGTH ∧
     (gameTicks kNone 6 (updatePlaying kJump
       (C4game 6))).player.jumped_this_frame = true ∧
     (gameTicks kNone 6 (updatePlaying kJump
       (C4game 6))).player.jump_buffer_timer = 0) := by
  refine ⟨?_, ?_, ?_, ?_⟩
  · intro p hd hg hw hc hdj hjh
    rw [handleInput_run kJump p hd]
    have e1 : (hiClamp (hiFriction kJump (hiRight kJump
        (hiLeft kJump p)))).jump_held = false := by
      simp [hiClamp, hiLeft_eq, hiRight_eq, hiFriction_eq, hjh]
    set q := hiClamp (hiFriction kJump (hiRight kJump (hiLeft kJump p)))
      with hq
    have eq2 : q.on_wall = 0 := by
      rw [hq]; simp [hiClamp, hiLeft_eq, hiRight_eq, hiFriction_eq, hw]
    have eq3 : q.on_ground = false := by
      rw [hq]; simp [hiClamp, hiLeft_eq, hiRight_eq, hiFriction_eq, hg]
    have eq4 : q.coyote_timer = 0 := by
      rw [hq]; simp [hiClamp, hiLeft_eq, hiRight_eq, hiFriction_eq, hc]
    have eq5 : q.double_jump_available = false := by
      rw [hq]; simp [hiClamp, hiLeft_eq, hiRight_eq, hiFriction_eq, hdj]
    have eq6 : q.vel_y = p.vel_y := by
      rw [hq]; simp [hiClamp, hiLeft_eq, hiRight_eq, hiFriction_eq]
    have eq7 : q.jumped_this_frame = p.jumped_this_frame := by
      rw [hq]; simp [hiClamp, hiLeft_eq, hiRight_eq, hiFriction_eq]
    rw [hiDash_not kJump _ rfl, hiJump_edge kJump _ rfl e1]
    rw [attemptJump_none _ (by simpa using eq2) (by simpa using eq3)
      (by simpa using eq4) (by simpa using eq5)]
    refine ⟨rfl, by simpa using eq6, by simpa using eq7⟩
  · intro p
    simp [updateTimers_eq]
  · intro p hg hb hw
    have h0 : coyoteArm false p = p := coyoteArm_skip _ _ rfl
    have h1 : bufferedJump p = { attemptJump p with jump_buffer_timer := 0 } :=
      bufferedJump_go _ hg hb
    have h2 : attemptJump p =
        { p with vel_y := PLAYER_JUMP_STRENGTH, on_ground := false,
                 coyote_timer := 0, jumped_this_frame := true } :=
      attemptJump_ground _ hw hg
    obtain ⟨-, -, -, d4, -, -, -, -, -, -, -, d12, -, d14⟩ :=
      djaRefresh_pres ({ attemptJump p with jump_buffer_timer := 0 })
    simp only [coyoteAndBufferPhase, h0, h1]
    rw [d4, d12, d14, h2]
    simp
  · have ek6t1 : updatePlaying kJump
        (C4game 6) =
        { player := { rect := ⟨100, 861/2, 32, 48⟩,
                      vel_y := 4/5,
                      double_jump_available := false,
                      jump_held := true,
                      jump_buffer_timer := 7 },
          platforms := [C4floor], hazards := [], collectibles := [] } := by
      norm_num [C4game, C4player, C4floor, updatePlaying,
        updatePlayingPlatformsFirst, playerUpdate, handleInput, hiLeft, hiRight,
        hiFriction, hiClamp, hiJump, hiDash, startDash, attemptJump,
        updateTimers, resetFrameFlags, tickCoyoteTimer, tickJumpBufferTimer,
        tickDashCooldownTimer, tickWallJumpTimer, tickInvincibilityTimer,
        tickPowerupTimer, dashPhase, dashStep, dashEnd, gravityPhase,
        applyGravity, wallSlide, terminalCap, movePhase, hCollideOne,
        handleHorizontalCollisions, vCollideOne, handleVerticalCollisions,
        movingGetVelocity, squarePos, landingPhase, landDetect, jumpStretch,
        squashRecover, coyoteAndBufferPhase, coyoteArm, bufferedJump,
        djaRefresh, fallDeathPhase, takeDamage, checkHazards, checkCollectibles,
        collectOne, platUpdate, movingUpdate, fallingUpdate, bouncyUpdate,
        platTrigger, Rect.colliderect, Rect.bottom, Rect.right, kNone, kJump,
        ptype_facts, pkind_facts, abs_of_nonneg, abs_of_nonpos, abs_zero,
        abs_neg,
        GRAVITY, TERMINAL_VELOCITY, FRICTION, SCREEN_HEIGHT,
        PLAYER_ACCELERATION, PLAYER_MAX_SPEED, PLAYER_JUMP_STRENGTH,
        PLAYER_DOUBLE_JUMP_STRENGTH, PLAYER_DASH_SPEED, PLAYER_DASH_DURATION,
        PLAYER_DASH_COOLDOWN, PLAYER_WALL_SLIDE_SPEED, PLAYER_WALL_JUMP_X,
        PLAYER_WALL_JUMP_Y, PLAYER_COYOTE_TIME, PLAYER_JUMP_BUFFER,
        PLAYER_MAX_HEALTH, PLAYER_INVINCIBILITY_FRAMES, SQUASH_LAND,
        STRETCH_JUMP, SQUASH_RECOVERY_SPEED, POWERUP_DURATION]
    have ek6t2 : updatePlaying kNone
        { player := { rect := ⟨100, 861/2, 32, 48⟩,
                      vel_y := 4/5,
                      double_jump_available := false,
                      jump_held := true,
                      jump_buffer_timer := 7 },
          platforms := [C4floor], hazards := [], collectibles := [] } =
        { player := { rect := ⟨100, 4321/10, 32, 48⟩,
                      vel_y := 8/5,
                      double_jump_available := false,
                      jump_buffer_timer := 6 },
          platforms := [C4floor], hazards := [], collectibles := [] } := by
      norm_num [C4game, C4player, C4floor, updatePlaying,
        updatePlayingPlatformsFirst, playerUpdate, handleInput, hiLeft, hiRight,
        hiFriction, hiClamp, hiJump, hiDash, startDash, attemptJump,
        updateTimers, resetFrameFlags, tickCoyoteTimer, tickJumpBufferTimer,
        tickDashCooldownTimer, tickWallJumpTimer, tickInvincibilityTimer,
        tickPowerupTimer, dashPhase, dashStep, dashEnd, gravityPhase,
        applyGravity, wallSlide, terminalCap, movePhase, hCollideOne,
        handleHorizontalCollisions, vCollideOne, handleVerticalCollisions,
        movingGetVelocity, squarePos, landingPhase, landDetect, jumpStretch,
        squashRecover, coyoteAndBufferPhase, coyoteArm, bufferedJump,
        djaRefresh, fallDeathPhase, takeDamage, checkHazards, checkCollectibles,
        collectOne, platUpdate, movingUpdate, fallingUpdate, bouncyUpdate,
        platTrigger, Rect.colliderect, Rect.bottom, Rect.right, kNone, kJump,
        ptype_facts, pkind_facts, abs_of_nonneg, abs_of_nonpos, abs_zero,
        abs_neg,
        GRAVITY, TERMINAL_VELOCITY, FRICTION, SCREEN_HEIGHT,
        PLAYER_ACCELERATION, PLAYER_MAX_SPEED, PLAYER_JUMP_STRENGTH,
        PLAYER_DOUBLE_JUMP_STRENGTH, PLAYER_DASH_SPEED, PLAYER_DASH_DURATION,
        PLAYER_DASH_COOLDOWN, PLAYER_WALL_SLIDE_SPEED, PLAYER_WALL_JUMP_X,
        PLAYER_WALL_JUMP_Y, PLAYER_COYOTE_TIME, PLAYER_JUMP_BUFFER,
        PLAYER_MAX_HEALTH, PLAYER_INVINCIBILITY_FRAMES, SQUASH_LAND,
        STRETCH_JUMP, SQUASH_RECOVERY_SPEED, POWERUP_DURATION]
    have ek6t3 : updatePlaying kNone
        { player := { rect := ⟨100, 4321/10, 32, 48⟩,
                      vel_y := 8/5,
                      double_jump_available := false,
                      jump_buffer_timer := 6 },
          platforms := [C4floor], hazards := [], collectibles := [] } =
        { player := { rect := ⟨100, 869/2, 32, 48⟩,
                      vel_y := 12/5,
                      double_jump_available := false,
                      jump_buffer_timer := 5 },
          platforms := [C4floor], hazards := [], collectibles := [] } := by
      norm_num [C4game, C4player, C4floor, updatePlaying,
        updatePlayingPlatformsFirst, playerUpdate, handleInput, hiLeft, hiRight,
        hiFriction, hiClamp, hiJump, hiDash, startDash, attemptJump,
        updateTimers, resetFrameFlags, tickCoyoteTimer, tickJumpBufferTimer,
        tickDashCooldownTimer, tickWallJumpTimer, tickInvincibilityTimer,
        tickPowerupTimer, dashPhase, dashStep, dashEnd, gravityPhase,
        applyGravity, wallSlide, terminalCap, movePhase, hCollideOne,
        handleHorizontalCollisions, vCollideOne, handleVerticalCollisions,
        movingGetVelocity, squarePos, landingPhase, landDetect, jumpStretch,
        squashRecover, coyoteAndBufferPhase, coyoteArm, bufferedJump,
        djaRefresh, fallDeathPhase, takeDamage, checkHazards, checkCollectibles,
        collectOne, platUpdate, movingUpdate, fallingUpdate, bouncyUpdate,
        platTrigger, Rect.colliderect, Rect.bottom, Rect.right, kNone, kJump,
        ptype_facts, pkind_facts, abs_of_nonneg, abs_of_nonpos, abs_zero,
        abs_neg,
        GRAVITY, TERMINAL_VELOCITY, FRICTION, SCREEN_HEIGHT,
        PLAYER_ACCELERATION, PLAYER_MAX_SPEED, PLAYER_JUMP_STRENGTH,
        PLAYER_DOUBLE_JUMP_STRENGTH, PLAYER_DASH_SPEED, PLAYER_DASH_DURATION,
        PLAYER_DASH_COOLDOWN, PLAYER_WALL_SLIDE_SPEED, PLAYER_WALL_JUMP_X,
        PLAYER_WALL_JUMP_Y, PLAYER_COYOTE_TIME, PLAYER_JUMP_BUFFER,
        PLAYER_MAX_HEALTH, PLAYER_INVINCIBILITY_FRAMES, SQUASH_LAND,
        STRETCH_JUMP, SQUASH_RECOVERY_SPEED, POWERUP_DURATION]
    have ek6t4 : updatePlaying kNone
        { player := { rect := ⟨100, 869/2, 32, 48⟩,
                      vel_y := 12/5,
                      double_jump_available := false,
                      jump_buffer_timer := 5 },
          platforms := [C4floor], hazards := [], collectibles := [] } =
        { player := { rect := ⟨100, 4377/10, 32, 48⟩,
                      vel_y := 16/5,
                      double_jump_available := false,
                      jump_buffer_timer := 4 },
          platforms := [C4floor], hazards := [], collectibles := [] } := by
      norm_num [C4game, C4player, C4floor, updatePlaying,
        updatePlayingPlatformsFirst, playerUpdate, handleInput, hiLeft, hiRight,
        hiFriction, hiClamp, hiJump, hiDash, startDash, attemptJump,
        updateTimers, resetFrameFlags, tickCoyoteTimer, tickJumpBufferTimer,
        tickDashCooldownTimer, tickWallJumpTimer, tickInvincibilityTimer,
        tickPowerupTimer, dashPhase, dashStep, dashEnd, gravityPhase,
        applyGravity, wallSlide, terminalCap, movePhase, hCollideOne,
        handleHorizontalCollisions, vCollideOne, handleVerticalCollisions,
        movingGetVelocity, squarePos, landingPhase, landDetect, jumpStretch,
        squashRecover, coyoteAndBufferPhase, coyoteArm, bufferedJump,
        djaRefresh, fallDeathPhase, takeDamage, checkHazards, checkCollectibles,
        collectOne, platUpdate, movingUpdate, fallingUpdate, bouncyUpdate,
        platTrigger, Rect.colliderect, Rect.bottom, Rect.right, kNone, kJump,
        ptype_facts, pkind_facts, abs_of_nonneg, abs_of_nonpos, abs_zero,
        abs_neg,
        GRAVITY, TERMINAL_VELOCITY, FRICTION, SCREEN_HEIGHT,
        PLAYER_ACCELERATION, PLAYER_MAX_SPEED, PLAYER_JUMP_STRENGTH,
        PLAYER_DOUBLE_JUMP_STRENGTH, PLAYER_DASH_SPEED, PLAYER_DASH_DURATION,
        PLAYER_DASH_COOLDOWN, PLAYER_WALL_SLIDE_SPEED, PLAYER_WALL_JUMP_X,
        PLAYER_WALL_JUMP_Y, PLAYER_COYOTE_TIME, PLAYER_JUMP_BUFFER,
        PLAYER_MAX_HEALTH, PLAYER_INVINCIBILITY_FRAMES, SQUASH_LAND,
        STRETCH_JUMP, SQUASH_RECOVERY_SPEED, POWERUP_DURATION]
    have ek6t5 : updatePlaying kNone
        { player := { rect := ⟨100, 4377/10, 32, 48⟩,
                      vel_y := 16/5,
                      double_jump_available := false,
                      jump_buffer_timer := 4 },
          platforms := [C4floor], hazards := [], collectibles := [] } =
        { player := { rect := ⟨100, 4417/10, 32, 48⟩,
                      vel_y := 4,
                      double_jump_available := false,
                      jump_buffer_timer := 3 },
          platforms := [C4floor], hazards := [], collectibles := [] } := by
      norm_num [C4game, C4player, C4floor, updatePlaying,
        updatePlayingPlatformsFirst, playerUpdate, handleInput, hiLeft, hiRight,
        hiFriction, hiClamp, hiJump, hiDash, startDash, attemptJump,
        updateTimers, resetFrameFlags, tickCoyoteTimer, tickJumpBufferTimer,
        tickDashCooldownTimer, tickWallJumpTimer, tickInvincibilityTimer,
        tickPowerupTimer, dashPhase, dashStep, dashEnd, gravityPhase,
        applyGravity, wallSlide, terminalCap, movePhase, hCollideOne,
        handleHorizontalCollisions, vCollideOne, handleVerticalCollisions,
        movingGetVelocity, squarePos, landingPhase, landDetect, jumpStretch,
        squashRecover, coyoteAndBufferPhase, coyoteArm, bufferedJump,
        djaRefresh, fallDeathPhase, takeDamage, checkHazards, checkCollectibles,
        collectOne, platUpdate, movingUpdate, fallingUpdate, bouncyUpdate,
        platTrigger, Rect.colliderect, Rect.bottom, Rect.right, kNone, kJump,
        ptype_facts, pkind_facts, abs_of_nonneg, abs_of_nonpos, abs_zero,
        abs_neg,
        GRAVITY, TERMINAL_VELOCITY, FRICTION, SCREEN_HEIGHT,
        PLAYER_ACCELERATION, PLAYER_MAX_SPEED, PLAYER_JUMP_STRENGTH,
        PLAYER_DOUBLE_JUMP_STRENGTH, PLAYER_DASH_SPEED, PLAYER_DASH_DURATION,
        PLAYER_DASH_COOLDOWN, PLAYER_WALL_SLIDE_SPEED, PLAYER_WALL_JUMP_X,
        PLAYER_WALL_JUMP_Y, PLAYER_COYOTE_TIME, PLAYER_JUMP_BUFFER,
        PLAYER_MAX_HEALTH, PLAYER_INVINCIBILITY_FRAMES, SQUASH_LAND,
        STRETCH_JUMP, SQUASH_RECOVERY_SPEED, POWERUP_DURATION]
    have ek6t6 : updatePlaying kNone
        { player := { rect := ⟨100, 4417/10, 32, 48⟩,
                      vel_y := 4,
                      double_jump_available := false,
                      jump_buffer_timer := 3 },
          platforms := [C4floor], hazards := [], collectibles := [] } =
        { player := { rect := ⟨100, 893/2, 32, 48⟩,
                      vel_y := 24/5,
                      double_jump_available := false,
                      jump_buffer_timer := 2 },
          platforms := [C4floor], hazards := [], collectibles := [] } := by
      norm_num [C4game, C4player, C4floor, updatePlaying,
        updatePlayingPlatformsFirst, playerUpdate, handleInput, hiLeft, hiRight,
        hiFriction, hiClamp, hiJump, hiDash, startDash, attemptJump,
        updateTimers, resetFrameFlags, tickCoyoteTimer, tickJumpBufferTimer,
        tickDashCooldownTimer, tickWallJumpTimer, tickInvincibilityTimer,
        tickPowerupTimer, dashPhase, dashStep, dashEnd, gravityPhase,
        applyGravity, wallSlide, terminalCap, movePhase, hCollideOne,
        handleHorizontalCollisions, vCollideOne, handleVerticalCollisions,
        movingGetVelocity, squarePos, landingPhase, landDetect, jumpStretch,
        squashRecover, coyoteAndBufferPhase, coyoteArm, bufferedJump,
        djaRefresh, fallDeathPhase, takeDamage, checkHazards, checkCollectibles,
        collectOne, platUpdate, movingUpdate, fallingUpdate, bouncyUpdate,
        platTrigger, Rect.colliderect, Rect.bottom, Rect.right, kNone, kJump,
        ptype_facts, pkind_facts, abs_of_nonneg, abs_of_nonpos, abs_zero,
        abs_neg,
        GRAVITY, TERMINAL_VELOCITY, FRICTION, SCREEN_HEIGHT,
        PLAYER_ACCELERATION, PLAYER_MAX_SPEED, PLAYER_JUMP_STRENGTH,
        PLAYER_DOUBLE_JUMP_STRENGTH, PLAYER_DASH_SPEED, PLAYER_DASH_DURATION,
        PLAYER_DASH_COOLDOWN, PLAYER_WALL_SLIDE_SPEED, PLAYER_WALL_JUMP_X,
        PLAYER_WALL_JUMP_Y, PLAYER_COYOTE_TIME, PLAYER_JUMP_BUFFER,
        PLAYER_MAX_HEALTH, PLAYER_INVINCIBILITY_FRAMES, SQUASH_LAND,
        STRETCH_JUMP, SQUASH_RECOVERY_SPEED, POWERUP_DURATION]
    have ek6t7 : updatePlaying kNone
        { player := { rect := ⟨100, 893/2, 32, 48⟩,
                      vel_y := 24/5,
                      double_jump_available := false,
                      jump_buffer_timer := 2 },
          platforms := [C4floor], hazards := [], collectibles := [] } =
        { player := { rect := ⟨100, 452, 32, 48⟩,
                      vel_y := -16,
                      double_jump_available := false,
                      squash_stretch := 17/20,
                      landed_this_frame := true,
                      jumped_this_frame := true,
                      current_platform := some C4floor },
          platforms := [C4floor], hazards := [], collectibles := [] } := by
      norm_num [C4game, C4player, C4floor, updatePlaying,
        updatePlayingPlatformsFirst, playerUpdate, handleInput, hiLeft, hiRight,
        hiFriction, hiClamp, hiJump, hiDash, startDash, attemptJump,
        updateTimers, resetFrameFlags, tickCoyoteTimer, tickJumpBufferTimer,
        tickDashCooldownTimer, tickWallJumpTimer, tickInvincibilityTimer,
        tickPowerupTimer, dashPhase, dashStep, dashEnd, gravityPhase,
        applyGravity, wallSlide, terminalCap, movePhase, hCollideOne,
        handleHorizontalCollisions, vCollideOne, handleVerticalCollisions,
        movingGetVelocity, squarePos, landingPhase, landDetect, jumpStretch,
        squashRecover, coyoteAndBufferPhase, coyoteArm, bufferedJump,
        djaRefresh, fallDeathPhase, takeDamage, checkHazards, checkCollectibles,
        collectOne, platUpdate, movingUpdate, fallingUpdate, bouncyUpdate,
        platTrigger, Rect.colliderect, Rect.bottom, Rect.right, kNone, kJump,
        ptype_facts, pkind_facts, abs_of_nonneg, abs_of_nonpos, abs_zero,
        abs_neg,
        GRAVITY, TERMINAL_VELOCITY, FRICTION, SCREEN_HEIGHT,
        PLAYER_ACCELERATION, PLAYER_MAX_SPEED, PLAYER_JUMP_STRENGTH,
        PLAYER_DOUBLE_JUMP_STRENGTH, PLAYER_DASH_SPEED, PLAYER_DASH_DURATION,
        PLAYER_DASH_COOLDOWN, PLAYER_WALL_SLIDE_SPEED, PLAYER_WALL_JUMP_X,
        PLAYER_WALL_JUMP_Y, PLAYER_COYOTE_TIME, PLAYER_JUMP_BUFFER,
        PLAYER_MAX_HEALTH, PLAYER_INVINCIBILITY_FRAMES, SQUASH_LAND,
        STRETCH_JUMP, SQUASH_RECOVERY_SPEED, POWERUP_DURATION]
    have E6 : gameTicks kNone 6 (updatePlaying kJump (C4game 6)) =
        updatePlaying kNone (updatePlaying kNone (updatePlaying kNone (updatePlaying kNone (updatePlaying kNone (updatePlaying kNone (updatePlaying kJump (C4game 6))))))) := rfl
    have E5 : gameTicks kNone 5 (updatePlaying kJump (C4game 6)) =
        updatePlaying kNone (updatePlaying kNone (updatePlaying kNone (updatePlaying kNone (updatePlaying kNone (updatePlaying kJump (C4game 6)))))) := rfl
    rw [E6, E5, ek6t1, ek6t2, ek6t3, ek6t4, ek6t5, ek6t6, ek6t7]
    norm_num [C4game, C4player, PLAYER_JUMP_STRENGTH]

/-! ### Witnesses: the hypothesis-bearing claim theorems at concrete
inputs -/

theorem C2_amended_witness :
    (handleInput kNone C2p).vel_y = -16 * (1/2) ∧
    (handleInput kNone C2p).jump_held = false :=
  C2_amended kNone C2p rfl rfl rfl (by norm_num [C2p])

theorem C5_coyote_window_witness :
    (playerTick0 { rect := ⟨0, 0, 32, 48⟩, on_ground := true }).coyote_timer
      = PLAYER_COYOTE_TIME :=
  (C5_coyote_window { rect := ⟨0, 0, 32, 48⟩, on_ground := true }
    rfl rfl (le_refl 0)).1

/-- A one-way platform below a rising player. -/
def C7pl : Plat :=
  { rect := ⟨0, 100, 100, 10⟩, ptype := PType.oneway, friction := 1,
    active := true, kind := PKind.onewayK }

theorem C7_oneway_gate_witness :
    (handleVerticalCollisions { rect := ⟨0, 80, 32, 48⟩, vel_y := -1 }
      [C7pl]).1.vel_y = -1 :=
  ((C7_oneway_gate { rect := ⟨0, 80, 32, 48⟩, vel_y := -1 } C7pl
    rfl rfl rfl).2.1 (by norm_num)).2.1

theorem C9_amended_witness :
    (playerTick0 { rect := ⟨0, 0, 32, 48⟩, invincible := true,
                   invincibility_timer := 2 }).health = (3 : ℤ) :=
  (C9_amended { rect := ⟨0, 0, 32, 48⟩, invincible := true,
                invincibility_timer := 2 } rfl).2 rfl (le_refl 2)

theorem C10_shared_invincible_flag_witness :
    (playerUpdate { rect := ⟨0, 0, 32, 48⟩, dashing := true,
                    dash_timer := 1 } [] [] []).1.invincible = false ∧
    (playerUpdate { rect := ⟨0, 0, 32, 48⟩, dashing := true,
                    dash_timer := 1 } [] [] []).1.dashing = false :=
  (C10_shared_invincible_flag { rect := ⟨0, 0, 32, 48⟩, dashing := true,
                                dash_timer := 1 }
    (by norm_num [PLAYER_MAX_HEALTH])).1 rfl rfl


end Platformer
